import Mathlib

/-!
Grove LCD RGB backlight driver (`rgb_lcd.c`, `rgb_lcd.h`)

A shallow embedding of the driver.  The device structure `rgb_lcd_t` is a record of
`uint8_t` fields held as natural numbers (a store into a field reduces modulo 256).  The
two HAL entry points the driver calls, `HAL_I2C_Master_Transmit` and `HAL_Delay`, append
an event to a trace; every driver function maps a `World` (device structure plus the trace
so far) to a `World`.
-/

namespace RgbLcd

/-! ## Constants of `rgb_lcd.h` -/

def LCD_ADDRESS : Nat := 0x7c >>> 1
def RGB_ADDRESS : Nat := 0xc4 >>> 1
def RGB_ADDRESS_V5 : Nat := 0x30

def WHITE : Nat := 0
def RED : Nat := 1
def GREEN : Nat := 2
def BLUE : Nat := 3

def REG_MODE1 : Nat := 0x00
def REG_MODE2 : Nat := 0x01
def REG_OUTPUT : Nat := 0x08

def LCD_CLEARDISPLAY : Nat := 0x01
def LCD_RETURNHOME : Nat := 0x02
def LCD_ENTRYMODESET : Nat := 0x04
def LCD_DISPLAYCONTROL : Nat := 0x08
def LCD_CURSORSHIFT : Nat := 0x10
def LCD_FUNCTIONSET : Nat := 0x20
def LCD_SETCGRAMADDR : Nat := 0x40
def LCD_SETDDRAMADDR : Nat := 0x80

def LCD_ENTRYRIGHT : Nat := 0x00
def LCD_ENTRYLEFT : Nat := 0x02
def LCD_ENTRYSHIFTINCREMENT : Nat := 0x01
def LCD_ENTRYSHIFTDECREMENT : Nat := 0x00

def LCD_DISPLAYON : Nat := 0x04
def LCD_DISPLAYOFF : Nat := 0x00
def LCD_CURSORON : Nat := 0x02
def LCD_CURSOROFF : Nat := 0x00
def LCD_BLINKON : Nat := 0x01
def LCD_BLINKOFF : Nat := 0x00

def LCD_DISPLAYMOVE : Nat := 0x08
def LCD_CURSORMOVE : Nat := 0x00
def LCD_MOVERIGHT : Nat := 0x04
def LCD_MOVELEFT : Nat := 0x00

def LCD_8BITMODE : Nat := 0x10
def LCD_4BITMODE : Nat := 0x00
def LCD_2LINE : Nat := 0x08
def LCD_1LINE : Nat := 0x00
def LCD_5x10DOTS : Nat := 0x04
def LCD_5x8DOTS : Nat := 0x00

/-! ## Machine integers -/

/-- Conversion to `uint8_t`: the value modulo 256. -/
def u8 (x : Nat) : Nat := x % 256

/-- The C expression `~x` for a small non-negative `int` constant `x`, as the 32-bit
two's-complement bit pattern.  The driver only ever uses it as `field &= ~FLAG`, where the
result is stored back into a `uint8_t`. -/
def bnot (x : Nat) : Nat := 0xFFFFFFFF - x

/-! ## Data model -/

/-- The device structure `rgb_lcd_t`.  `hi2c` is the bus handle (a pointer, kept as an
opaque number). -/
structure rgb_lcd_t where
  displayfunction : Nat
  displaycontrol : Nat
  displaymode : Nat
  initialized : Nat
  numlines : Nat
  currline : Nat
  rgb_chip_addr : Nat
  hi2c : Nat
deriving DecidableEq, Repr

/-- Every `uint8_t` field holds a value below 256. -/
def rgb_lcd_t.wf (l : rgb_lcd_t) : Prop :=
  l.displayfunction < 256 ∧ l.displaycontrol < 256 ∧ l.displaymode < 256 ∧
  l.initialized < 256 ∧ l.numlines < 256 ∧ l.currline < 256 ∧ l.rgb_chip_addr < 256

instance (l : rgb_lcd_t) : Decidable l.wf := by
  unfold rgb_lcd_t.wf; infer_instance

/-- What the driver does to the outside: a bus write
`HAL_I2C_Master_Transmit(hi2c, DevAddress, pData, Size, Timeout)` (the `Size` bytes at
`pData` are recorded as a list) or a blocking `HAL_Delay(ms)`. -/
inductive Event where
  | transmit (hi2c : Nat) (DevAddress : Nat) (pData : List Nat) (Timeout : Nat)
  | delay (ms : Nat)
deriving DecidableEq, Repr

/-- Modelled from the spec: the status type of the vendor header `stm32f0xx_hal.h`, which
is not part of the sources.  The transport answers `success|failure`; the driver only ever
compares a status with `HAL_OK`. -/
inductive HAL_StatusTypeDef where
  | HAL_OK
  | HAL_ERROR
deriving DecidableEq, Repr

/-- Device structure together with the trace of HAL calls made so far (oldest first). -/
structure World where
  lcd : rgb_lcd_t
  trace : List Event
deriving DecidableEq, Repr

/-! ## HAL calls -/

/-- The call `HAL_I2C_Master_Transmit(hi2c, DevAddress, pData, Size, Timeout)`: the first
`Size` bytes of `pData` go on the bus.  The returned status is decided by the hardware; the
driver discards it everywhere except at the probe inside `rgb_lcd_init`. -/
def HAL_I2C_Master_Transmit (w : World) (hi2c DevAddress : Nat) (pData : List Nat)
    (Size Timeout : Nat) : World :=
  { w with trace := w.trace ++ [Event.transmit hi2c DevAddress (pData.take Size) Timeout] }

/-- The call `HAL_Delay(ms)`. -/
def HAL_Delay (w : World) (ms : Nat) : World :=
  { w with trace := w.trace ++ [Event.delay ms] }

/-! ## Private functions of `rgb_lcd.c` -/

def i2c_send_byte (w : World) (dta : Nat) : World :=
  if w.lcd.initialized = 0 then w
  else HAL_I2C_Master_Transmit w w.lcd.hi2c (LCD_ADDRESS <<< 1) [u8 dta] 1 100

def i2c_send_bytes (w : World) (dta : List Nat) (len : Nat) : World :=
  if w.lcd.initialized = 0 then w
  else HAL_I2C_Master_Transmit w w.lcd.hi2c (LCD_ADDRESS <<< 1) dta (u8 len) 100

def lcd_command (w : World) (value : Nat) : World :=
  let dta := [0x80, u8 value]
  i2c_send_bytes w dta 2

def set_register (w : World) (reg data : Nat) : World :=
  if w.lcd.initialized = 0 then w
  else
    let tx_data := [u8 reg, u8 data]
    HAL_I2C_Master_Transmit w w.lcd.hi2c (w.lcd.rgb_chip_addr <<< 1) tx_data 2 100

/-- The table `color_define[4][3]`. -/
def color_define : List (List Nat) :=
  [[255, 255, 255],  -- white
   [255, 0, 0],      -- red
   [0, 255, 0],      -- green
   [0, 0, 255]]      -- blue

/-- The element `color_define[i][j]`. -/
def color_define_at (i j : Nat) : Nat := (color_define.getD i []).getD j 0

/-! ## Public functions of `rgb_lcd.c` -/

def rgb_lcd_clear (w : World) : World :=
  let w := lcd_command w LCD_CLEARDISPLAY
  HAL_Delay w 2

def rgb_lcd_home (w : World) : World :=
  let w := lcd_command w LCD_RETURNHOME
  HAL_Delay w 2

def rgb_lcd_set_cursor (w : World) (col row : Nat) : World :=
  let col := u8 (if row = 0 then col ||| 0x80 else col ||| 0xc0)
  let dta := [0x80, col]
  i2c_send_bytes w dta 2

def rgb_lcd_no_display (w : World) : World :=
  let w := { w with lcd := { w.lcd with
    displaycontrol := u8 (w.lcd.displaycontrol &&& bnot LCD_DISPLAYON) } }
  lcd_command w (LCD_DISPLAYCONTROL ||| w.lcd.displaycontrol)

def rgb_lcd_display (w : World) : World :=
  let w := { w with lcd := { w.lcd with
    displaycontrol := u8 (w.lcd.displaycontrol ||| LCD_DISPLAYON) } }
  lcd_command w (LCD_DISPLAYCONTROL ||| w.lcd.displaycontrol)

def rgb_lcd_no_cursor (w : World) : World :=
  let w := { w with lcd := { w.lcd with
    displaycontrol := u8 (w.lcd.displaycontrol &&& bnot LCD_CURSORON) } }
  lcd_command w (LCD_DISPLAYCONTROL ||| w.lcd.displaycontrol)

def rgb_lcd_cursor (w : World) : World :=
  let w := { w with lcd := { w.lcd with
    displaycontrol := u8 (w.lcd.displaycontrol ||| LCD_CURSORON) } }
  lcd_command w (LCD_DISPLAYCONTROL ||| w.lcd.displaycontrol)

def rgb_lcd_no_blink (w : World) : World :=
  let w := { w with lcd := { w.lcd with
    displaycontrol := u8 (w.lcd.displaycontrol &&& bnot LCD_BLINKON) } }
  lcd_command w (LCD_DISPLAYCONTROL ||| w.lcd.displaycontrol)

def rgb_lcd_blink (w : World) : World :=
  let w := { w with lcd := { w.lcd with
    displaycontrol := u8 (w.lcd.displaycontrol ||| LCD_BLINKON) } }
  lcd_command w (LCD_DISPLAYCONTROL ||| w.lcd.displaycontrol)

def rgb_lcd_scroll_display_left (w : World) : World :=
  lcd_command w (LCD_CURSORSHIFT ||| LCD_DISPLAYMOVE ||| LCD_MOVELEFT)

def rgb_lcd_scroll_display_right (w : World) : World :=
  lcd_command w (LCD_CURSORSHIFT ||| LCD_DISPLAYMOVE ||| LCD_MOVERIGHT)

def rgb_lcd_left_to_right (w : World) : World :=
  let w := { w with lcd := { w.lcd with
    displaymode := u8 (w.lcd.displaymode ||| LCD_ENTRYLEFT) } }
  lcd_command w (LCD_ENTRYMODESET ||| w.lcd.displaymode)

def rgb_lcd_right_to_left (w : World) : World :=
  let w := { w with lcd := { w.lcd with
    displaymode := u8 (w.lcd.displaymode &&& bnot LCD_ENTRYLEFT) } }
  lcd_command w (LCD_ENTRYMODESET ||| w.lcd.displaymode)

def rgb_lcd_autoscroll (w : World) : World :=
  let w := { w with lcd := { w.lcd with
    displaymode := u8 (w.lcd.displaymode ||| LCD_ENTRYSHIFTINCREMENT) } }
  lcd_command w (LCD_ENTRYMODESET ||| w.lcd.displaymode)

def rgb_lcd_no_autoscroll (w : World) : World :=
  let w := { w with lcd := { w.lcd with
    displaymode := u8 (w.lcd.displaymode &&& bnot LCD_ENTRYSHIFTINCREMENT) } }
  lcd_command w (LCD_ENTRYMODESET ||| w.lcd.displaymode)

/-- The loop `for (int i = 0; i < 8; i++) dta[i + 1] = charmap[i];` of
`rgb_lcd_create_char`, started at index `i` with `n` iterations left. -/
def create_char_fill (charmap : Nat → Nat) : Nat → Nat → List Nat → List Nat
  | 0, _, dta => dta
  | n + 1, i, dta => create_char_fill charmap n (i + 1) (dta.set (i + 1) (u8 (charmap i)))

/-- The argument `charmap` is the memory behind the pointer `uint8_t charmap[]`, as a
map from index to byte. -/
def rgb_lcd_create_char (w : World) (location : Nat) (charmap : Nat → Nat) : World :=
  let location := u8 (location &&& 0x7)
  let w := lcd_command w (LCD_SETCGRAMADDR ||| (location <<< 3))
  let dta := [0x40, 0, 0, 0, 0, 0, 0, 0, 0]
  let dta := create_char_fill charmap 8 0 dta
  i2c_send_bytes w dta 9

def rgb_lcd_write_char (w : World) (value : Nat) : World :=
  let dta := [0x40, u8 value]
  i2c_send_bytes w dta 2

/-- The argument `str` is the memory behind the pointer `const char* str`, byte by byte;
the loop `while (*str)` stops at the first zero byte (or where the modelled memory ends). -/
def rgb_lcd_write_string (w : World) : List Nat → World
  | [] => w
  | c :: str => if c = 0 then w else rgb_lcd_write_string (rgb_lcd_write_char w c) str

def rgb_lcd_set_rgb (w : World) (r g b : Nat) : World :=
  if w.lcd.rgb_chip_addr = RGB_ADDRESS_V5 then
    let w := set_register w 0x06 r
    let w := set_register w 0x07 g
    set_register w 0x08 b
  else
    let w := set_register w 0x04 r
    let w := set_register w 0x03 g
    set_register w 0x02 b

def rgb_lcd_set_pwm (w : World) (color pwm : Nat) : World :=
  if color = WHITE then rgb_lcd_set_rgb w pwm pwm pwm
  else if color = RED then rgb_lcd_set_rgb w pwm 0 0
  else if color = GREEN then rgb_lcd_set_rgb w 0 pwm 0
  else if color = BLUE then rgb_lcd_set_rgb w 0 0 pwm
  else w

def rgb_lcd_set_color (w : World) (color : Nat) : World :=
  if color > 3 then w
  else rgb_lcd_set_rgb w (color_define_at color 0) (color_define_at color 1)
    (color_define_at color 2)

def rgb_lcd_set_color_white (w : World) : World :=
  rgb_lcd_set_rgb w 255 255 255

def rgb_lcd_blink_led (w : World) : World :=
  if w.lcd.rgb_chip_addr = RGB_ADDRESS_V5 then
    let w := set_register w 0x04 0x2a
    let w := set_register w 0x01 0x06
    set_register w 0x02 0x7f
  else
    let w := set_register w 0x07 0x17
    set_register w 0x06 0x7f

def rgb_lcd_no_blink_led (w : World) : World :=
  if w.lcd.rgb_chip_addr = RGB_ADDRESS_V5 then
    set_register w 0x04 0x15
  else
    let w := set_register w 0x07 0x00
    set_register w 0x06 0xff

set_option linter.unusedVariables false in
/-- The function `rgb_lcd_init`.  `status` is what the hardware answers to the probe write
to `RGB_ADDRESS_V5`. -/
def rgb_lcd_init (w : World) (cols lines dotsize hi2c : Nat)
    (status : HAL_StatusTypeDef) : World :=
  -- memset(lcd, 0, sizeof(rgb_lcd_t)); lcd->hi2c = hi2c; lcd->initialized = 1;
  let w := { w with lcd := ⟨0, 0, 0, 0, 0, 0, 0, 0⟩ }
  let w := { w with lcd := { w.lcd with hi2c := hi2c } }
  let w := { w with lcd := { w.lcd with initialized := 1 } }
  let w := if lines > 1 then
      { w with lcd := { w.lcd with displayfunction := u8 (w.lcd.displayfunction ||| LCD_2LINE) } }
    else w
  let w := { w with lcd := { w.lcd with numlines := u8 lines } }
  let w := { w with lcd := { w.lcd with currline := 0 } }
  let w := if dotsize ≠ 0 ∧ lines = 1 then
      { w with lcd := { w.lcd with
          displayfunction := u8 (w.lcd.displayfunction ||| LCD_5x10DOTS) } }
    else w
  let w := HAL_Delay w 50
  let w := lcd_command w (LCD_FUNCTIONSET ||| w.lcd.displayfunction)
  let w := HAL_Delay w 5
  let w := lcd_command w (LCD_FUNCTIONSET ||| w.lcd.displayfunction)
  let w := HAL_Delay w 1
  let w := lcd_command w (LCD_FUNCTIONSET ||| w.lcd.displayfunction)
  let w := lcd_command w (LCD_FUNCTIONSET ||| w.lcd.displayfunction)
  let w := { w with lcd := { w.lcd with
    displaycontrol := u8 (LCD_DISPLAYON ||| LCD_CURSOROFF ||| LCD_BLINKOFF) } }
  let w := rgb_lcd_display w
  let w := rgb_lcd_clear w
  let w := { w with lcd := { w.lcd with
    displaymode := u8 (LCD_ENTRYLEFT ||| LCD_ENTRYSHIFTDECREMENT) } }
  let w := lcd_command w (LCD_ENTRYMODESET ||| w.lcd.displaymode)
  let tx_data := 0x00
  let w := HAL_I2C_Master_Transmit w w.lcd.hi2c (RGB_ADDRESS_V5 <<< 1) [tx_data] 1 100
  let w := if status = HAL_StatusTypeDef.HAL_OK then
      let w := { w with lcd := { w.lcd with rgb_chip_addr := RGB_ADDRESS_V5 } }
      let w := set_register w 0x00 0x07
      let w := HAL_Delay w 1
      set_register w 0x04 0x15
    else
      let w := { w with lcd := { w.lcd with rgb_chip_addr := RGB_ADDRESS } }
      let w := set_register w REG_MODE1 0
      let w := set_register w REG_OUTPUT 0xFF
      set_register w REG_MODE2 0x20
  rgb_lcd_set_color_white w

/-! ## Sequences of display/cursor/blink toggles -/

/-- The six display/cursor/blink toggles. -/
inductive Toggle where
  | display | no_display | cursor | no_cursor | blink | no_blink
deriving DecidableEq, Repr

/-- The driver function behind each toggle. -/
def Toggle.run : Toggle → World → World
  | .display => rgb_lcd_display
  | .no_display => rgb_lcd_no_display
  | .cursor => rgb_lcd_cursor
  | .no_cursor => rgb_lcd_no_cursor
  | .blink => rgb_lcd_blink
  | .no_blink => rgb_lcd_no_blink

/-- Running a sequence of toggles, first to last. -/
def run_toggles (w : World) (ts : List Toggle) : World :=
  ts.foldl (fun w t => t.run w) w

/-- Specification side: the bit of `control_flags` a toggle is about (0x04 display,
0x02 cursor, 0x01 blink). -/
def Toggle.bit : Toggle → Nat
  | .display | .no_display => 0x04
  | .cursor | .no_cursor => 0x02
  | .blink | .no_blink => 0x01

/-- Specification side: whether the toggle sets its bit (otherwise it clears it). -/
def Toggle.sets : Toggle → Bool
  | .display | .cursor | .blink => true
  | .no_display | .no_cursor | .no_blink => false

/-- Specification side: an 8-bit flag set `c` with the toggle's bit set or cleared. -/
def Toggle.apply (t : Toggle) (c : Nat) : Nat :=
  if t.sets then c ||| t.bit else c &&& (0xFF - t.bit)

/-- Specification side: the flag set accumulated from `c` by the toggles `ts`, in order. -/
def accumulate (c : Nat) (ts : List Toggle) : Nat :=
  ts.foldl (fun c t => t.apply c) c

/-- The events a call appended to the trace, given the world before and after it. -/
def emitted (before after : World) : List Event :=
  after.trace.drop before.trace.length

/-! ## Sequences of public operations -/

/-- A call of a public function other than `rgb_lcd_init`, with its arguments. -/
inductive Op where
  | clear | home
  | set_cursor (col row : Nat)
  | no_display | display | no_cursor | cursor | no_blink | blink
  | scroll_display_left | scroll_display_right
  | left_to_right | right_to_left | autoscroll | no_autoscroll
  | create_char (location : Nat) (charmap : Nat → Nat)
  | write_char (value : Nat)
  | write_string (str : List Nat)
  | set_rgb (r g b : Nat)
  | set_pwm (color pwm : Nat)
  | set_color (color : Nat)
  | set_color_white | blink_led | no_blink_led

/-- The driver function behind each call. -/
def Op.run : Op → World → World
  | .clear, w => rgb_lcd_clear w
  | .home, w => rgb_lcd_home w
  | .set_cursor col row, w => rgb_lcd_set_cursor w col row
  | .no_display, w => rgb_lcd_no_display w
  | .display, w => rgb_lcd_display w
  | .no_cursor, w => rgb_lcd_no_cursor w
  | .cursor, w => rgb_lcd_cursor w
  | .no_blink, w => rgb_lcd_no_blink w
  | .blink, w => rgb_lcd_blink w
  | .scroll_display_left, w => rgb_lcd_scroll_display_left w
  | .scroll_display_right, w => rgb_lcd_scroll_display_right w
  | .left_to_right, w => rgb_lcd_left_to_right w
  | .right_to_left, w => rgb_lcd_right_to_left w
  | .autoscroll, w => rgb_lcd_autoscroll w
  | .no_autoscroll, w => rgb_lcd_no_autoscroll w
  | .create_char location charmap, w => rgb_lcd_create_char w location charmap
  | .write_char value, w => rgb_lcd_write_char w value
  | .write_string str, w => rgb_lcd_write_string w str
  | .set_rgb r g b, w => rgb_lcd_set_rgb w r g b
  | .set_pwm color pwm, w => rgb_lcd_set_pwm w color pwm
  | .set_color color, w => rgb_lcd_set_color w color
  | .set_color_white, w => rgb_lcd_set_color_white w
  | .blink_led, w => rgb_lcd_blink_led w
  | .no_blink_led, w => rgb_lcd_no_blink_led w

/-- Running a sequence of calls, first to last. -/
def run_ops (w : World) (ops : List Op) : World :=
  ops.foldl (fun w o => o.run w) w

/-- Specification side: the `function_flags` that `lines` and `dotsize` select: 0x08 when
`lines > 1`, 0x04 when `lines = 1` and `dotsize` is not 0, and 0 otherwise. -/
def function_flags (lines dotsize : Nat) : Nat :=
  if lines > 1 then 0x08 else if lines = 1 ∧ dotsize ≠ 0 then 0x04 else 0

/-- The bus write `[0x80, value]` to the LCD controller (7-bit address 0x3E). -/
def lcd_frame (hi2c value : Nat) : Event :=
  Event.transmit hi2c (0x3E <<< 1) [0x80, value] 100

/-- The bus write `[reg, data]` to the backlight chip at the 7-bit address `addr`. -/
def reg_frame (hi2c addr reg data : Nat) : Event :=
  Event.transmit hi2c (addr <<< 1) [reg, data] 100

/-- The fields of the device structure outside the two mode accumulators. -/
def fixed_fields (l : rgb_lcd_t) : Nat × Nat × Nat × Nat × Nat × Nat :=
  (l.displayfunction, l.initialized, l.numlines, l.currline, l.rgb_chip_addr, l.hi2c)

/-! ## Bus writes in a trace, calls including `rgb_lcd_init` -/

/-- The `DevAddress` of every bus write among the events, in order; delays are skipped. -/
def bus_addresses (es : List Event) : List Nat :=
  es.filterMap fun e =>
    match e with
    | Event.transmit _ DevAddress _ _ => some DevAddress
    | Event.delay _ => none

/-- A call of any public function: `rgb_lcd_init` with its arguments and the answer the
hardware gives to its probe, or one of the other functions. -/
inductive Call where
  | init (cols lines dotsize hi2c : Nat) (status : HAL_StatusTypeDef)
  | op (o : Op)

/-- The driver function behind each call. -/
def Call.run : Call → World → World
  | .init cols lines dotsize hi2c status, w => rgb_lcd_init w cols lines dotsize hi2c status
  | .op o, w => o.run w

/-- Running a sequence of calls of any public function, first to last. -/
def run_calls (w : World) (cs : List Call) : World :=
  cs.foldl (fun w c => c.run w) w

/-- Each toggle as a public call. -/
def Toggle.toOp : Toggle → Op
  | .display => Op.display
  | .no_display => Op.no_display
  | .cursor => Op.cursor
  | .no_cursor => Op.no_cursor
  | .blink => Op.blink
  | .no_blink => Op.no_blink

/-- Specification side: what a call does to `control_flags`: the six display/cursor/blink
toggles set (`true`) or clear (`false`) one bit, every other call does nothing. -/
def Op.control_edit : Op → Option (Bool × Nat)
  | .display => some (true, 0x04)
  | .no_display => some (false, 0x04)
  | .cursor => some (true, 0x02)
  | .no_cursor => some (false, 0x02)
  | .blink => some (true, 0x01)
  | .no_blink => some (false, 0x01)
  | _ => none

/-- Specification side: what a call does to `entry_flags`: the four direction/autoscroll
calls set (`true`) or clear (`false`) one bit, every other call does nothing. -/
def Op.entry_edit : Op → Option (Bool × Nat)
  | .left_to_right => some (true, 0x02)
  | .right_to_left => some (false, 0x02)
  | .autoscroll => some (true, 0x01)
  | .no_autoscroll => some (false, 0x01)
  | _ => none

/-- Specification side: an 8-bit flag set after an edit: unchanged, or with the bit set,
or with the bit cleared. -/
def edit_flags (e : Option (Bool × Nat)) (c : Nat) : Nat :=
  match e with
  | none => c
  | some (true, b) => c ||| b
  | some (false, b) => c &&& (0xFF - b)

/-- The world reached from `rgb_lcd_init` by a sequence of further public calls, later
calls of `rgb_lcd_init` included. -/
def reach (w0 : World) (cols lines dotsize hi2c : Nat) (status : HAL_StatusTypeDef)
    (cs : List Call) : World :=
  run_calls (rgb_lcd_init w0 cols lines dotsize hi2c status) cs

/-- The invariant of the device structure once `rgb_lcd_init` has run. -/
def rgb_lcd_t.inv (l : rgb_lcd_t) : Prop :=
  l.displaycontrol ≤ 0x07 ∧ l.displaymode ≤ 0x03 ∧
  (l.displayfunction = 0x00 ∨ l.displayfunction = 0x04 ∨ l.displayfunction = 0x08) ∧
  (l.rgb_chip_addr = 0x30 ∨ l.rgb_chip_addr = 0x62) ∧ l.initialized = 1

/-- The worlds reachable from a call of `rgb_lcd_init` (any arguments, either probe
outcome, any world before it) by any finite sequence of public calls. -/
inductive Reachable : World → Prop where
  | init (w0 : World) (cols lines dotsize hi2c : Nat) (status : HAL_StatusTypeDef) :
      Reachable (rgb_lcd_init w0 cols lines dotsize hi2c status)
  | call (c : Call) (w : World) : Reachable w → Reachable (c.run w)

/-! ## Machine-integer lemmas -/

theorem u8_lt (x : Nat) : u8 x < 256 := Nat.mod_lt _ (by decide)

theorem u8_of_lt {x : Nat} (h : x < 256) : u8 x = x := Nat.mod_eq_of_lt h

theorem or_lt_256 {a b : Nat} (ha : a < 256) (hb : b < 256) : a ||| b < 256 :=
  Nat.or_lt_two_pow (n := 8) ha hb

theorem and_lt_256 {a : Nat} (b : Nat) (ha : a < 256) : a &&& b < 256 :=
  lt_of_le_of_lt Nat.and_le_left ha

theorem testBit_high_of_lt_256 {c : Nat} (hc : c < 256) (j : Nat) (hj : 8 ≤ j) :
    c.testBit j = false :=
  Nat.testBit_lt_two_pow (lt_of_lt_of_le hc (by
    calc 256 = 2 ^ 8 := rfl
      _ ≤ 2 ^ j := Nat.pow_le_pow_right (by norm_num) hj))

/-- Masking a byte with a wider mask only sees the mask's low byte. -/
theorem u8_and_wide (c m : Nat) (hc : c < 256) : u8 (c &&& m) = c &&& (m % 256) := by
  apply Nat.eq_of_testBit_eq
  intro i
  simp only [u8, show (256 : Nat) = 2 ^ 8 from rfl, Nat.testBit_mod_two_pow, Nat.testBit_and]
  by_cases hi : i < 8
  · simp [hi]
  · simp [hi, testBit_high_of_lt_256 hc i (by omega)]

theorem u8_or_idem (c m : Nat) : u8 (u8 (c ||| m) ||| m) = u8 (c ||| m) := by
  apply Nat.eq_of_testBit_eq
  intro i
  simp only [u8, show (256 : Nat) = 2 ^ 8 from rfl, Nat.testBit_mod_two_pow, Nat.testBit_or]
  cases decide (i < 8) <;> cases c.testBit i <;> cases m.testBit i <;> rfl

theorem u8_and_idem (c m : Nat) : u8 (u8 (c &&& m) &&& m) = u8 (c &&& m) := by
  apply Nat.eq_of_testBit_eq
  intro i
  simp only [u8, show (256 : Nat) = 2 ^ 8 from rfl, Nat.testBit_mod_two_pow, Nat.testBit_and]
  cases decide (i < 8) <;> cases c.testBit i <;> cases m.testBit i <;> rfl

/-- A value OR-ed with the one-bit opcode `2 ^ k` is at least `2 ^ k`. -/
theorem two_pow_le_or (k c : Nat) : 2 ^ k ≤ 2 ^ k ||| c :=
  Nat.testBit_implies_ge (by simp [Nat.testBit_or, Nat.testBit_two_pow_self])

/-! ## The display/cursor/blink toggles -/

theorem Toggle.apply_lt (t : Toggle) {c : Nat} (hc : c < 256) : t.apply c < 256 := by
  unfold Toggle.apply
  split
  · exact or_lt_256 hc (by cases t <;> decide)
  · exact and_lt_256 _ hc

/-- What one toggle stores into `displaycontrol`, for a byte-sized starting value. -/
theorem Toggle.run_displaycontrol (t : Toggle) (w : World) (hc : w.lcd.displaycontrol < 256) :
    (t.run w).lcd = { w.lcd with displaycontrol := t.apply w.lcd.displaycontrol } := by
  cases t <;>
    simp [Toggle.run, Toggle.apply, Toggle.sets, Toggle.bit, rgb_lcd_display,
      rgb_lcd_no_display, rgb_lcd_cursor, rgb_lcd_no_cursor, rgb_lcd_blink, rgb_lcd_no_blink,
      lcd_command, i2c_send_bytes, HAL_I2C_Master_Transmit, LCD_DISPLAYON, LCD_CURSORON,
      LCD_BLINKON, u8_and_wide _ _ hc, bnot, apply_ite World.lcd] <;>
    first
      | rfl
      | exact u8_of_lt (or_lt_256 hc (by decide))

/-- The frame one toggle puts on the bus: the opcode OR-ed with the stored flags. -/
theorem Toggle.run_trace (t : Toggle) (w : World) (hinit : w.lcd.initialized ≠ 0) :
    (t.run w).trace = w.trace ++
      [Event.transmit w.lcd.hi2c (0x3E <<< 1)
        [0x80, u8 (0x08 ||| (t.run w).lcd.displaycontrol)] 100] := by
  cases t <;>
    simp [Toggle.run, rgb_lcd_display,
      rgb_lcd_no_display, rgb_lcd_cursor, rgb_lcd_no_cursor, rgb_lcd_blink, rgb_lcd_no_blink,
      lcd_command, i2c_send_bytes, HAL_I2C_Master_Transmit, hinit, LCD_ADDRESS,
      LCD_DISPLAYCONTROL, u8]

/-- The frame one toggle puts on the bus in any state: nothing before initialisation,
otherwise the opcode OR-ed with the stored flags. -/
theorem Toggle.run_trace_any (t : Toggle) (w : World) :
    (t.run w).trace = w.trace ++
      (if w.lcd.initialized = 0 then []
       else [Event.transmit w.lcd.hi2c (0x3E <<< 1)
        [0x80, u8 (0x08 ||| (t.run w).lcd.displaycontrol)] 100]) := by
  by_cases hinit : w.lcd.initialized = 0
  · cases t <;>
      simp [Toggle.run, rgb_lcd_display,
        rgb_lcd_no_display, rgb_lcd_cursor, rgb_lcd_no_cursor, rgb_lcd_blink, rgb_lcd_no_blink,
        lcd_command, i2c_send_bytes, hinit]
  · rw [Toggle.run_trace t w hinit, if_neg hinit]

/-- No toggle touches a field other than `displaycontrol`. -/
theorem Toggle.run_frame (t : Toggle) (w : World) :
    (t.run w).lcd = { w.lcd with displaycontrol := (t.run w).lcd.displaycontrol } := by
  cases t <;>
    simp [Toggle.run, rgb_lcd_display,
      rgb_lcd_no_display, rgb_lcd_cursor, rgb_lcd_no_cursor, rgb_lcd_blink, rgb_lcd_no_blink,
      lcd_command, i2c_send_bytes, HAL_I2C_Master_Transmit, apply_ite World.lcd]

/-- The device structure after a second application of a toggle is the one after the
first. -/
theorem Toggle.run_run_lcd (t : Toggle) (w : World) : (t.run (t.run w)).lcd = (t.run w).lcd := by
  cases t <;>
    simp [Toggle.run, rgb_lcd_display,
      rgb_lcd_no_display, rgb_lcd_cursor, rgb_lcd_no_cursor, rgb_lcd_blink, rgb_lcd_no_blink,
      lcd_command, i2c_send_bytes, HAL_I2C_Master_Transmit, apply_ite World.lcd,
      u8_or_idem, u8_and_idem]

theorem run_toggles_lcd (ts : List Toggle) : ∀ w : World, w.lcd.displaycontrol < 256 →
    (run_toggles w ts).lcd =
      { w.lcd with displaycontrol := accumulate w.lcd.displaycontrol ts } := by
  induction ts with
  | nil => intro w _; rfl
  | cons t ts ih =>
    intro w hc
    have h1 := Toggle.run_displaycontrol t w hc
    have h2 : (t.run w).lcd.displaycontrol < 256 := by
      rw [h1]; exact Toggle.apply_lt t hc
    have h3 := ih (t.run w) h2
    simp only [run_toggles, accumulate, List.foldl_cons] at h3 ⊢
    rw [h3, h1]

theorem accumulate_lt (ts : List Toggle) : ∀ c, c < 256 → accumulate c ts < 256 := by
  induction ts with
  | nil => intro c hc; exact hc
  | cons t ts ih => intro c hc; exact ih _ (Toggle.apply_lt t hc)

theorem run_toggles_snoc (w : World) (ts : List Toggle) (t : Toggle) :
    run_toggles w (ts ++ [t]) = t.run (run_toggles w ts) := by
  simp [run_toggles, List.foldl_append]

/-! ## Primitive steps -/

@[simp] theorem HAL_Delay_lcd (w : World) (ms : Nat) : (HAL_Delay w ms).lcd = w.lcd := rfl

@[simp] theorem HAL_Delay_trace (w : World) (ms : Nat) :
    (HAL_Delay w ms).trace = w.trace ++ [Event.delay ms] := rfl

@[simp] theorem i2c_send_bytes_lcd (w : World) (dta : List Nat) (len : Nat) :
    (i2c_send_bytes w dta len).lcd = w.lcd := by
  unfold i2c_send_bytes; split <;> rfl

@[simp] theorem lcd_command_lcd (w : World) (value : Nat) :
    (lcd_command w value).lcd = w.lcd := by
  simp [lcd_command]

@[simp] theorem set_register_lcd (w : World) (reg data : Nat) :
    (set_register w reg data).lcd = w.lcd := by
  unfold set_register; split <;> rfl

theorem lcd_command_trace (w : World) (value : Nat) (hinit : w.lcd.initialized ≠ 0) :
    (lcd_command w value).trace = w.trace ++ [lcd_frame w.lcd.hi2c (u8 value)] := by
  simp [lcd_command, i2c_send_bytes, hinit, HAL_I2C_Master_Transmit, lcd_frame, LCD_ADDRESS, u8]

theorem set_register_trace (w : World) (reg data : Nat) (hinit : w.lcd.initialized ≠ 0) :
    (set_register w reg data).trace =
      w.trace ++ [reg_frame w.lcd.hi2c w.lcd.rgb_chip_addr (u8 reg) (u8 data)] := by
  simp [set_register, hinit, HAL_I2C_Master_Transmit, reg_frame]

/-! ## Initialisation, in full -/

/-- The device structure and the complete event sequence `rgb_lcd_init` produces. -/
theorem rgb_lcd_init_eq (w : World) (cols lines dotsize hi2c : Nat)
    (status : HAL_StatusTypeDef) :
    rgb_lcd_init w cols lines dotsize hi2c status =
      { lcd := { displayfunction := function_flags lines dotsize, displaycontrol := 0x04,
                 displaymode := 0x02, initialized := 1, numlines := u8 lines, currline := 0,
                 rgb_chip_addr := if status = HAL_StatusTypeDef.HAL_OK then 0x30 else 0x62,
                 hi2c := hi2c },
        trace := w.trace ++
          [Event.delay 50,
           lcd_frame hi2c (0x20 ||| function_flags lines dotsize),
           Event.delay 5,
           lcd_frame hi2c (0x20 ||| function_flags lines dotsize),
           Event.delay 1,
           lcd_frame hi2c (0x20 ||| function_flags lines dotsize),
           lcd_frame hi2c (0x20 ||| function_flags lines dotsize),
           lcd_frame hi2c 0x0C,
           lcd_frame hi2c 0x01,
           Event.delay 2,
           lcd_frame hi2c 0x06,
           Event.transmit hi2c (0x30 <<< 1) [0x00] 100] ++
          (if status = HAL_StatusTypeDef.HAL_OK then
            [reg_frame hi2c 0x30 0x00 0x07, Event.delay 1, reg_frame hi2c 0x30 0x04 0x15,
             reg_frame hi2c 0x30 0x06 255, reg_frame hi2c 0x30 0x07 255,
             reg_frame hi2c 0x30 0x08 255]
           else
            [reg_frame hi2c 0x62 0x00 0x00, reg_frame hi2c 0x62 0x08 0xFF,
             reg_frame hi2c 0x62 0x01 0x20,
             reg_frame hi2c 0x62 0x04 255, reg_frame hi2c 0x62 0x03 255,
             reg_frame hi2c 0x62 0x02 255]) } := by
  by_cases h1 : lines > 1
  · have h2 : ¬ (dotsize ≠ 0 ∧ lines = 1) := by omega
    cases status <;>
      simp [rgb_lcd_init, h1, h2, function_flags, lcd_command, i2c_send_bytes, set_register,
        HAL_I2C_Master_Transmit, HAL_Delay, rgb_lcd_display, rgb_lcd_clear,
        rgb_lcd_set_color_white, rgb_lcd_set_rgb, lcd_frame, reg_frame, u8,
        LCD_ADDRESS, RGB_ADDRESS, RGB_ADDRESS_V5, LCD_2LINE, LCD_5x10DOTS, LCD_FUNCTIONSET,
        LCD_DISPLAYON, LCD_CURSOROFF, LCD_BLINKOFF, LCD_DISPLAYCONTROL, LCD_CLEARDISPLAY,
        LCD_ENTRYLEFT, LCD_ENTRYSHIFTDECREMENT, LCD_ENTRYMODESET, REG_MODE1, REG_MODE2,
        REG_OUTPUT]
  · by_cases h2 : dotsize ≠ 0 ∧ lines = 1
    · have h3 : lines = 1 ∧ dotsize ≠ 0 := ⟨h2.2, h2.1⟩
      cases status <;>
        simp [rgb_lcd_init, h1, h2, h3, function_flags, lcd_command, i2c_send_bytes,
          set_register,
          HAL_I2C_Master_Transmit, HAL_Delay, rgb_lcd_display, rgb_lcd_clear,
          rgb_lcd_set_color_white, rgb_lcd_set_rgb, lcd_frame, reg_frame, u8,
          LCD_ADDRESS, RGB_ADDRESS, RGB_ADDRESS_V5, LCD_2LINE, LCD_5x10DOTS, LCD_FUNCTIONSET,
          LCD_DISPLAYON, LCD_CURSOROFF, LCD_BLINKOFF, LCD_DISPLAYCONTROL, LCD_CLEARDISPLAY,
          LCD_ENTRYLEFT, LCD_ENTRYSHIFTDECREMENT, LCD_ENTRYMODESET, REG_MODE1, REG_MODE2,
          REG_OUTPUT]
    · have h3 : ¬ (lines = 1 ∧ dotsize ≠ 0) := fun h => h2 ⟨h.2, h.1⟩
      cases status <;>
        simp [rgb_lcd_init, h1, h2, h3, function_flags, lcd_command, i2c_send_bytes,
          set_register,
          HAL_I2C_Master_Transmit, HAL_Delay, rgb_lcd_display, rgb_lcd_clear,
          rgb_lcd_set_color_white, rgb_lcd_set_rgb, lcd_frame, reg_frame, u8,
          LCD_ADDRESS, RGB_ADDRESS, RGB_ADDRESS_V5, LCD_2LINE, LCD_5x10DOTS, LCD_FUNCTIONSET,
          LCD_DISPLAYON, LCD_CURSOROFF, LCD_BLINKOFF, LCD_DISPLAYCONTROL, LCD_CLEARDISPLAY,
          LCD_ENTRYLEFT, LCD_ENTRYSHIFTDECREMENT, LCD_ENTRYMODESET, REG_MODE1, REG_MODE2,
          REG_OUTPUT]

/-! ## Fields no later call changes -/

@[simp] theorem rgb_lcd_write_char_lcd (w : World) (value : Nat) :
    (rgb_lcd_write_char w value).lcd = w.lcd := by
  simp [rgb_lcd_write_char]

theorem rgb_lcd_write_string_lcd (str : List Nat) :
    ∀ w : World, (rgb_lcd_write_string w str).lcd = w.lcd := by
  induction str with
  | nil => intro w; rfl
  | cons c str ih =>
    intro w
    unfold rgb_lcd_write_string
    split
    · rfl
    · rw [ih]; simp

@[simp] theorem rgb_lcd_set_rgb_lcd (w : World) (r g b : Nat) :
    (rgb_lcd_set_rgb w r g b).lcd = w.lcd := by
  unfold rgb_lcd_set_rgb; split <;> simp

/-- No public call other than `rgb_lcd_init` changes a field besides `displaycontrol` and
`displaymode`. -/
theorem Op.run_fixed_fields (o : Op) (w : World) :
    fixed_fields (o.run w).lcd = fixed_fields w.lcd := by
  cases o <;>
    simp [Op.run, fixed_fields, rgb_lcd_clear, rgb_lcd_home, rgb_lcd_set_cursor,
      rgb_lcd_no_display, rgb_lcd_display, rgb_lcd_no_cursor, rgb_lcd_cursor, rgb_lcd_no_blink,
      rgb_lcd_blink, rgb_lcd_scroll_display_left, rgb_lcd_scroll_display_right,
      rgb_lcd_left_to_right, rgb_lcd_right_to_left, rgb_lcd_autoscroll, rgb_lcd_no_autoscroll,
      rgb_lcd_create_char, rgb_lcd_write_string_lcd, rgb_lcd_set_pwm, rgb_lcd_set_color,
      rgb_lcd_set_color_white, rgb_lcd_blink_led, rgb_lcd_no_blink_led, apply_ite World.lcd]

theorem run_ops_fixed_fields (ops : List Op) :
    ∀ w : World, fixed_fields (run_ops w ops).lcd = fixed_fields w.lcd := by
  induction ops with
  | nil => intro w; rfl
  | cons o ops ih =>
    intro w
    have h := ih (o.run w)
    simp only [run_ops, List.foldl_cons] at h ⊢
    rw [h, Op.run_fixed_fields]

/-- In every state reached from `rgb_lcd_init` by other public calls, the fields outside
the two mode accumulators still hold what `rgb_lcd_init` stored. -/
theorem reachable_fixed_fields (w0 : World) (cols lines dotsize hi2c : Nat)
    (status : HAL_StatusTypeDef) (ops : List Op) :
    fixed_fields (run_ops (rgb_lcd_init w0 cols lines dotsize hi2c status) ops).lcd =
      (function_flags lines dotsize, 1, u8 lines, 0,
        if status = HAL_StatusTypeDef.HAL_OK then 0x30 else 0x62, hi2c) := by
  rw [run_ops_fixed_fields, rgb_lcd_init_eq]
  rfl

/-- The three register writes of `rgb_lcd_set_rgb` in an initialised state. -/
theorem rgb_lcd_set_rgb_trace (w : World) (r g b : Nat) (hinit : w.lcd.initialized ≠ 0) :
    (rgb_lcd_set_rgb w r g b).trace = w.trace ++
      (if w.lcd.rgb_chip_addr = 0x30 then
        [reg_frame w.lcd.hi2c w.lcd.rgb_chip_addr 0x06 (u8 r),
         reg_frame w.lcd.hi2c w.lcd.rgb_chip_addr 0x07 (u8 g),
         reg_frame w.lcd.hi2c w.lcd.rgb_chip_addr 0x08 (u8 b)]
       else
        [reg_frame w.lcd.hi2c w.lcd.rgb_chip_addr 0x04 (u8 r),
         reg_frame w.lcd.hi2c w.lcd.rgb_chip_addr 0x03 (u8 g),
         reg_frame w.lcd.hi2c w.lcd.rgb_chip_addr 0x02 (u8 b)]) := by
  unfold rgb_lcd_set_rgb
  by_cases h : w.lcd.rgb_chip_addr = 0x30
  · have h5 : w.lcd.rgb_chip_addr = RGB_ADDRESS_V5 := h
    simp [h5, set_register, hinit, HAL_I2C_Master_Transmit, reg_frame, RGB_ADDRESS_V5, u8]
  · have h5 : ¬ w.lcd.rgb_chip_addr = RGB_ADDRESS_V5 := h
    simp [h5, h, set_register, hinit, HAL_I2C_Master_Transmit, reg_frame, u8]

/-! ## Character and glyph writes -/

theorem rgb_lcd_write_char_trace (w : World) (value : Nat) (hinit : w.lcd.initialized ≠ 0) :
    (rgb_lcd_write_char w value).trace =
      w.trace ++ [Event.transmit w.lcd.hi2c (0x3E <<< 1) [0x40, u8 value] 100] := by
  simp [rgb_lcd_write_char, i2c_send_bytes, hinit, HAL_I2C_Master_Transmit, LCD_ADDRESS, u8]

/-- The loop of `rgb_lcd_create_char` fills the eight slots behind the 0x40 prefix. -/
theorem create_char_fill_eq (charmap : Nat → Nat) :
    create_char_fill charmap 8 0 [0x40, 0, 0, 0, 0, 0, 0, 0, 0] =
      [0x40, u8 (charmap 0), u8 (charmap 1), u8 (charmap 2), u8 (charmap 3), u8 (charmap 4),
        u8 (charmap 5), u8 (charmap 6), u8 (charmap 7)] := by
  simp [create_char_fill]

/-- The CGRAM command byte of a masked location lies in 0x40..0x78 and needs no
truncation. -/
theorem cgram_byte_bounds (location : Nat) :
    0x40 ≤ 0x40 ||| ((location &&& 7) <<< 3) ∧ 0x40 ||| ((location &&& 7) <<< 3) ≤ 0x78 := by
  have h : location &&& 7 < 8 := Nat.lt_succ_of_le Nat.and_le_right
  generalize location &&& 7 = x at h
  interval_cases x <;> decide

/-- The initialisation trace is the old trace followed by the emitted events. -/
theorem rgb_lcd_init_emitted (w : World) (cols lines dotsize hi2c : Nat)
    (status : HAL_StatusTypeDef) :
    emitted w (rgb_lcd_init w cols lines dotsize hi2c status) =
      [Event.delay 50,
       lcd_frame hi2c (0x20 ||| function_flags lines dotsize),
       Event.delay 5,
       lcd_frame hi2c (0x20 ||| function_flags lines dotsize),
       Event.delay 1,
       lcd_frame hi2c (0x20 ||| function_flags lines dotsize),
       lcd_frame hi2c (0x20 ||| function_flags lines dotsize),
       lcd_frame hi2c 0x0C,
       lcd_frame hi2c 0x01,
       Event.delay 2,
       lcd_frame hi2c 0x06,
       Event.transmit hi2c (0x30 <<< 1) [0x00] 100] ++
      (if status = HAL_StatusTypeDef.HAL_OK then
        [reg_frame hi2c 0x30 0x00 0x07, Event.delay 1, reg_frame hi2c 0x30 0x04 0x15,
         reg_frame hi2c 0x30 0x06 255, reg_frame hi2c 0x30 0x07 255,
         reg_frame hi2c 0x30 0x08 255]
       else
        [reg_frame hi2c 0x62 0x00 0x00, reg_frame hi2c 0x62 0x08 0xFF,
         reg_frame hi2c 0x62 0x01 0x20,
         reg_frame hi2c 0x62 0x04 255, reg_frame hi2c 0x62 0x03 255,
         reg_frame hi2c 0x62 0x02 255]) := by
  unfold emitted
  rw [rgb_lcd_init_eq]
  simp only [List.append_assoc, List.drop_left]

/-! ## Calls before initialisation -/

/-- Before initialisation `rgb_lcd_write_string` does nothing at all. -/
theorem rgb_lcd_write_string_uninit (str : List Nat) (w : World)
    (h0 : w.lcd.initialized = 0) : rgb_lcd_write_string w str = w := by
  induction str with
  | nil => rfl
  | cons c str ih =>
    unfold rgb_lcd_write_string
    split
    · rfl
    · have hw : rgb_lcd_write_char w c = w := by
        simp [rgb_lcd_write_char, i2c_send_bytes, h0]
      rw [hw, ih]

/-- Before initialisation a call appends at most the 2 ms delay of `clear` and `home`. -/
theorem Op.run_trace_uninit (o : Op) (w : World) (h0 : w.lcd.initialized = 0) :
    (o.run w).trace = w.trace ∨ (o.run w).trace = w.trace ++ [Event.delay 2] := by
  cases o <;>
    simp [Op.run, rgb_lcd_clear, rgb_lcd_home, rgb_lcd_set_cursor,
      rgb_lcd_no_display, rgb_lcd_display, rgb_lcd_no_cursor, rgb_lcd_cursor, rgb_lcd_no_blink,
      rgb_lcd_blink, rgb_lcd_scroll_display_left, rgb_lcd_scroll_display_right,
      rgb_lcd_left_to_right, rgb_lcd_right_to_left, rgb_lcd_autoscroll, rgb_lcd_no_autoscroll,
      rgb_lcd_create_char, rgb_lcd_write_char, rgb_lcd_write_string_uninit, rgb_lcd_set_pwm,
      rgb_lcd_set_color, rgb_lcd_set_rgb,
      rgb_lcd_set_color_white, rgb_lcd_blink_led, rgb_lcd_no_blink_led, lcd_command,
      i2c_send_bytes, set_register, h0, apply_ite World.trace]

/-! ## What a call does to the two mode accumulators -/

/-- Setting bit `k` turns that bit on and leaves every other bit as it was. -/
theorem testBit_or_two_pow (c k i : Nat) :
    (c ||| 2 ^ k).testBit i = (decide (i = k) || c.testBit i) := by
  rw [Nat.testBit_or, Nat.testBit_two_pow, Bool.or_comm]
  by_cases h : i = k
  · simp [h]
  · have h2 : ¬ k = i := fun e => h e.symm
    simp [h, h2]

/-- Masking a byte with `0xFF - 2 ^ k` turns bit `k` off and leaves every other bit as it
was. -/
theorem testBit_and_clear (c k i : Nat) (hc : c < 256) (hk : k < 8) :
    (c &&& (0xFF - 2 ^ k)).testBit i = (!decide (i = k) && c.testBit i) := by
  rw [Nat.testBit_and]
  by_cases hi : i < 8
  · have : (0xFF - 2 ^ k).testBit i = !decide (i = k) := by
      interval_cases k <;> interval_cases i <;> decide
    rw [this, Bool.and_comm]
  · rw [testBit_high_of_lt_256 hc i (by omega)]
    simp

/-- The device structure after any public call other than `rgb_lcd_init`: only the two
mode accumulators can differ, each by the edit the call stands for. -/
theorem Op.run_lcd (o : Op) (w : World) (hdc : w.lcd.displaycontrol < 256)
    (hdm : w.lcd.displaymode < 256) :
    (o.run w).lcd = { w.lcd with
      displaycontrol := edit_flags o.control_edit w.lcd.displaycontrol,
      displaymode := edit_flags o.entry_edit w.lcd.displaymode } := by
  cases o <;>
    simp [Op.run, rgb_lcd_clear, rgb_lcd_home, rgb_lcd_set_cursor,
      rgb_lcd_no_display, rgb_lcd_display, rgb_lcd_no_cursor, rgb_lcd_cursor, rgb_lcd_no_blink,
      rgb_lcd_blink, rgb_lcd_scroll_display_left, rgb_lcd_scroll_display_right,
      rgb_lcd_left_to_right, rgb_lcd_right_to_left, rgb_lcd_autoscroll, rgb_lcd_no_autoscroll,
      rgb_lcd_create_char, rgb_lcd_write_string_lcd, rgb_lcd_set_pwm, rgb_lcd_set_color,
      rgb_lcd_set_color_white, rgb_lcd_blink_led, rgb_lcd_no_blink_led, apply_ite World.lcd,
      edit_flags, Op.control_edit, Op.entry_edit, u8_and_wide _ _ hdc, u8_and_wide _ _ hdm,
      bnot, LCD_DISPLAYON, LCD_CURSORON, LCD_BLINKON, LCD_ENTRYLEFT,
      LCD_ENTRYSHIFTINCREMENT] <;>
    first
      | rfl
      | exact u8_of_lt (or_lt_256 hdc (by decide))
      | exact u8_of_lt (or_lt_256 hdm (by decide))

/-- The frame each direction/autoscroll call puts on the bus: the opcode OR-ed with the
stored entry flags. -/
theorem entry_mode_trace (w : World) (hinit : w.lcd.initialized ≠ 0) :
    (rgb_lcd_left_to_right w).trace = w.trace ++
      [Event.transmit w.lcd.hi2c (0x3E <<< 1)
        [0x80, u8 (0x04 ||| (rgb_lcd_left_to_right w).lcd.displaymode)] 100] ∧
    (rgb_lcd_right_to_left w).trace = w.trace ++
      [Event.transmit w.lcd.hi2c (0x3E <<< 1)
        [0x80, u8 (0x04 ||| (rgb_lcd_right_to_left w).lcd.displaymode)] 100] ∧
    (rgb_lcd_autoscroll w).trace = w.trace ++
      [Event.transmit w.lcd.hi2c (0x3E <<< 1)
        [0x80, u8 (0x04 ||| (rgb_lcd_autoscroll w).lcd.displaymode)] 100] ∧
    (rgb_lcd_no_autoscroll w).trace = w.trace ++
      [Event.transmit w.lcd.hi2c (0x3E <<< 1)
        [0x80, u8 (0x04 ||| (rgb_lcd_no_autoscroll w).lcd.displaymode)] 100] := by
  refine ⟨?_, ?_, ?_, ?_⟩ <;>
    simp [rgb_lcd_left_to_right, rgb_lcd_right_to_left, rgb_lcd_autoscroll,
      rgb_lcd_no_autoscroll, lcd_command, i2c_send_bytes, HAL_I2C_Master_Transmit, hinit,
      LCD_ADDRESS, LCD_ENTRYMODESET, u8]

/-! ## Bus addresses of the events a call emits -/

theorem rgb_lcd_write_string_trace (str : List Nat) :
    ∀ w : World, w.lcd.initialized ≠ 0 →
    (rgb_lcd_write_string w str).trace = w.trace ++
      (str.takeWhile (fun c => decide (c ≠ 0))).map
        (fun c => Event.transmit w.lcd.hi2c (0x3E <<< 1) [0x40, u8 c] 100) := by
  induction str with
  | nil => intro w _; simp [rgb_lcd_write_string]
  | cons c str ih =>
    intro w hinit
    by_cases hc : c = 0
    · simp [rgb_lcd_write_string, hc]
    · rw [rgb_lcd_write_string, if_neg hc, ih _ (by simpa using hinit),
        rgb_lcd_write_char_trace w c hinit]
      simp [List.takeWhile, hc]

theorem bus_addresses_char_frames (hi2c : Nat) (cs : List Nat) :
    bus_addresses (cs.map (fun c => Event.transmit hi2c (0x3E <<< 1) [0x40, u8 c] 100))
      ⊆ [0x3E <<< 1] := by
  induction cs with
  | nil => simp [bus_addresses]
  | cons c cs ih =>
    simp only [bus_addresses, List.map_cons, List.filterMap_cons] at ih ⊢
    simpa using ih

theorem emitted_self (w : World) (l : List Nat) :
    w.trace = w.trace ++ emitted w w ∧ bus_addresses (emitted w w) ⊆ l := by
  simp [emitted, bus_addresses]

theorem rgb_lcd_set_rgb_bus (w : World) (r g b : Nat) (hinit : w.lcd.initialized ≠ 0) :
    (rgb_lcd_set_rgb w r g b).trace = w.trace ++ emitted w (rgb_lcd_set_rgb w r g b) ∧
    bus_addresses (emitted w (rgb_lcd_set_rgb w r g b))
      ⊆ [0x3E <<< 1, w.lcd.rgb_chip_addr <<< 1] := by
  unfold emitted
  rw [rgb_lcd_set_rgb_trace w r g b hinit]
  split <;> simp [bus_addresses, reg_frame]

theorem Op.run_bus_addresses (o : Op) (w : World) (hinit : w.lcd.initialized ≠ 0) :
    (o.run w).trace = w.trace ++ emitted w (o.run w) ∧
    bus_addresses (emitted w (o.run w)) ⊆ [0x3E <<< 1, w.lcd.rgb_chip_addr <<< 1] := by
  cases o with
  | set_pwm color pwm =>
    simp only [Op.run, rgb_lcd_set_pwm]
    split_ifs <;> first | exact rgb_lcd_set_rgb_bus _ _ _ _ hinit | exact emitted_self _ _
  | set_color color =>
    simp only [Op.run, rgb_lcd_set_color]
    split_ifs <;> first | exact rgb_lcd_set_rgb_bus _ _ _ _ hinit | exact emitted_self _ _
  | set_rgb r g b => exact rgb_lcd_set_rgb_bus _ _ _ _ hinit
  | set_color_white => exact rgb_lcd_set_rgb_bus _ _ _ _ hinit
  | write_string str =>
    have h := rgb_lcd_write_string_trace str w hinit
    simp only [Op.run, emitted]
    rw [h, List.drop_left]
    exact ⟨rfl, List.Subset.trans (bus_addresses_char_frames _ _) (by simp)⟩
  | _ =>
    by_cases hv : w.lcd.rgb_chip_addr = RGB_ADDRESS_V5 <;>
    simp [Op.run, rgb_lcd_clear, rgb_lcd_home, rgb_lcd_set_cursor,
      rgb_lcd_no_display, rgb_lcd_display, rgb_lcd_no_cursor, rgb_lcd_cursor, rgb_lcd_no_blink,
      rgb_lcd_blink, rgb_lcd_scroll_display_left, rgb_lcd_scroll_display_right,
      rgb_lcd_left_to_right, rgb_lcd_right_to_left, rgb_lcd_autoscroll, rgb_lcd_no_autoscroll,
      rgb_lcd_create_char, rgb_lcd_write_char,
      rgb_lcd_blink_led, rgb_lcd_no_blink_led, lcd_command,
      i2c_send_bytes, set_register, hinit, hv, emitted, bus_addresses,
      HAL_I2C_Master_Transmit, HAL_Delay, LCD_ADDRESS, apply_ite World.trace]

/-- The bus writes of `rgb_lcd_init` go to the LCD controller, to the probed address 0x30
and to the address it stores. -/
theorem rgb_lcd_init_bus (w : World) (cols lines dotsize hi2c : Nat)
    (status : HAL_StatusTypeDef) :
    bus_addresses (emitted w (rgb_lcd_init w cols lines dotsize hi2c status)) ⊆
      [0x3E <<< 1, 0x30 <<< 1,
        (rgb_lcd_init w cols lines dotsize hi2c status).lcd.rgb_chip_addr <<< 1] := by
  rw [rgb_lcd_init_emitted, rgb_lcd_init_eq]
  cases status <;> simp [bus_addresses, lcd_frame, reg_frame]

/-! ## The invariant of initialised states -/

theorem function_flags_cases (lines dotsize : Nat) :
    function_flags lines dotsize = 0x00 ∨ function_flags lines dotsize = 0x04 ∨
      function_flags lines dotsize = 0x08 := by
  unfold function_flags
  split
  · right; right; rfl
  · split
    · right; left; rfl
    · left; rfl

theorem edit_control_le (o : Op) {c : Nat} (hc : c ≤ 0x07) :
    edit_flags o.control_edit c ≤ 0x07 := by
  have hlt : c < 2 ^ 3 := Nat.lt_succ_of_le hc
  have hor : ∀ b, b < 2 ^ 3 → c ||| b ≤ 7 := fun b hb =>
    Nat.le_of_lt_succ (Nat.or_lt_two_pow hlt hb)
  have hand : ∀ b, c &&& b ≤ 7 := fun b => le_trans Nat.and_le_left hc
  cases o <;> simp only [Op.control_edit, edit_flags] <;>
    first
      | exact hc
      | exact hor _ (by decide)
      | exact hand _

theorem edit_entry_le (o : Op) {c : Nat} (hc : c ≤ 0x03) :
    edit_flags o.entry_edit c ≤ 0x03 := by
  have hlt : c < 2 ^ 2 := Nat.lt_succ_of_le hc
  have hor : ∀ b, b < 2 ^ 2 → c ||| b ≤ 3 := fun b hb =>
    Nat.le_of_lt_succ (Nat.or_lt_two_pow hlt hb)
  have hand : ∀ b, c &&& b ≤ 3 := fun b => le_trans Nat.and_le_left hc
  cases o <;> simp only [Op.entry_edit, edit_flags] <;>
    first
      | exact hc
      | exact hor _ (by decide)
      | exact hand _

theorem rgb_lcd_init_inv (w : World) (cols lines dotsize hi2c : Nat)
    (status : HAL_StatusTypeDef) :
    (rgb_lcd_init w cols lines dotsize hi2c status).lcd.inv := by
  rw [rgb_lcd_init_eq]
  refine ⟨?_, ?_, function_flags_cases lines dotsize, ?_, rfl⟩
  · show (4 : Nat) ≤ 7
    decide
  · show (2 : Nat) ≤ 3
    decide
  cases status
  · left; rfl
  · right; rfl

theorem Op.run_preserves_inv (o : Op) (w : World) (h : w.lcd.inv) : (o.run w).lcd.inv := by
  obtain ⟨h1, h2, h3, h4, h5⟩ := h
  rw [Op.run_lcd o w (by omega) (by omega)]
  exact ⟨edit_control_le o h1, edit_entry_le o h2, h3, h4, h5⟩

theorem Call.run_keeps_inv (c : Call) (w : World) (h : w.lcd.inv) : (c.run w).lcd.inv := by
  cases c with
  | init cols lines dotsize hi2c status => exact rgb_lcd_init_inv w cols lines dotsize hi2c status
  | op o => exact Op.run_preserves_inv o w h

theorem run_calls_inv (cs : List Call) : ∀ w : World, w.lcd.inv → (run_calls w cs).lcd.inv := by
  induction cs with
  | nil => intro w h; exact h
  | cons c cs ih => intro w h; exact ih _ (Call.run_keeps_inv c w h)

theorem reach_inv (w0 : World) (cols lines dotsize hi2c : Nat) (status : HAL_StatusTypeDef)
    (cs : List Call) : (reach w0 cols lines dotsize hi2c status cs).lcd.inv :=
  run_calls_inv cs _ (rgb_lcd_init_inv w0 cols lines dotsize hi2c status)

/-- In a state satisfying the invariant, the two backlight blink calls write only to the
stored backlight address and the two cursor blink calls only to the LCD controller. -/
theorem blink_calls_of_inv (w : World) (h : w.lcd.inv) :
    (rgb_lcd_blink_led w).lcd = w.lcd ∧ (rgb_lcd_no_blink_led w).lcd = w.lcd ∧
    (rgb_lcd_blink_led w).trace = w.trace ++
      (if w.lcd.rgb_chip_addr = 0x30 then
        [Event.transmit w.lcd.hi2c (0x30 <<< 1) [0x04, 0x2A] 100,
         Event.transmit w.lcd.hi2c (0x30 <<< 1) [0x01, 0x06] 100,
         Event.transmit w.lcd.hi2c (0x30 <<< 1) [0x02, 0x7F] 100]
       else
        [Event.transmit w.lcd.hi2c (0x62 <<< 1) [0x07, 0x17] 100,
         Event.transmit w.lcd.hi2c (0x62 <<< 1) [0x06, 0x7F] 100]) ∧
    (rgb_lcd_no_blink_led w).trace = w.trace ++
      (if w.lcd.rgb_chip_addr = 0x30 then
        [Event.transmit w.lcd.hi2c (0x30 <<< 1) [0x04, 0x15] 100]
       else
        [Event.transmit w.lcd.hi2c (0x62 <<< 1) [0x07, 0x00] 100,
         Event.transmit w.lcd.hi2c (0x62 <<< 1) [0x06, 0xFF] 100]) ∧
    (rgb_lcd_blink w).trace = w.trace ++
      [Event.transmit w.lcd.hi2c (0x3E <<< 1)
        [0x80, 0x08 ||| (rgb_lcd_blink w).lcd.displaycontrol] 100] ∧
    (rgb_lcd_no_blink w).trace = w.trace ++
      [Event.transmit w.lcd.hi2c (0x3E <<< 1)
        [0x80, 0x08 ||| (rgb_lcd_no_blink w).lcd.displaycontrol] 100] := by
  obtain ⟨h1, -, -, h4, h5⟩ := h
  have hinit : w.lcd.initialized ≠ 0 := by rw [h5]; decide
  have hdc : w.lcd.displaycontrol < 256 := by omega
  have hb := Toggle.run_trace Toggle.blink w hinit
  have hn := Toggle.run_trace Toggle.no_blink w hinit
  have hbl := Toggle.run_displaycontrol Toggle.blink w hdc
  have hnl := Toggle.run_displaycontrol Toggle.no_blink w hdc
  have hbb : (Toggle.blink.run w).lcd.displaycontrol < 256 := by
    rw [hbl]; exact Toggle.apply_lt Toggle.blink hdc
  have hnb : (Toggle.no_blink.run w).lcd.displaycontrol < 256 := by
    rw [hnl]; exact Toggle.apply_lt Toggle.no_blink hdc
  rw [u8_of_lt (or_lt_256 (show 0x08 < 256 by decide) hbb)] at hb
  rw [u8_of_lt (or_lt_256 (show 0x08 < 256 by decide) hnb)] at hn
  refine ⟨by simp [rgb_lcd_blink_led, apply_ite World.lcd],
    by simp [rgb_lcd_no_blink_led, apply_ite World.lcd], ?_, ?_, hb, hn⟩
  · rcases h4 with h4 | h4 <;>
      simp [rgb_lcd_blink_led, set_register, hinit, h4, RGB_ADDRESS_V5,
        HAL_I2C_Master_Transmit, u8]
  · rcases h4 with h4 | h4 <;>
      simp [rgb_lcd_no_blink_led, set_register, hinit, h4, RGB_ADDRESS_V5,
        HAL_I2C_Master_Transmit, u8]

theorem Reachable.inv {w : World} (hw : Reachable w) : w.lcd.inv := by
  induction hw with
  | init w0 cols lines dotsize hi2c status =>
    exact rgb_lcd_init_inv w0 cols lines dotsize hi2c status
  | call c w _ ih => exact Call.run_keeps_inv c w ih

/-- A one-bit opcode `2 ^ k` OR-ed with flags below it stays in `2 ^ k .. 2 ^ (k+1) - 1`
and needs no truncation to a byte while `k < 8`. -/
theorem mode_byte_bounds (k c : Nat) (hk : k < 8) (hc : c < 2 ^ k) :
    2 ^ k ≤ u8 (2 ^ k ||| c) ∧ u8 (2 ^ k ||| c) ≤ 2 ^ (k + 1) - 1 ∧
      u8 (2 ^ k ||| c) = 2 ^ k ||| c := by
  have h1 : 2 ^ k < 2 ^ (k + 1) := Nat.pow_lt_pow_right (by decide) (Nat.lt_succ_self k)
  have h2 : 2 ^ k ||| c < 2 ^ (k + 1) := Nat.or_lt_two_pow h1 (lt_trans hc h1)
  have h3 : 2 ^ (k + 1) ≤ 2 ^ 8 := Nat.pow_le_pow_right (by decide) hk
  have h4 : u8 (2 ^ k ||| c) = 2 ^ k ||| c :=
    u8_of_lt (lt_of_lt_of_le h2 (by simpa using h3))
  rw [h4]
  exact ⟨two_pow_le_or k c, Nat.le_sub_one_of_lt h2, rfl⟩

/-! ## Claims -/

/-- C1: in an initialised state, after any sequence `ts` of display/cursor/blink toggles,
the next toggle `t` stores the flag set accumulated from the starting `displaycontrol` by
all toggles so far (each setting or clearing its bit 0x04, 0x02 or 0x01, in order) and
appends exactly one bus write to the LCD controller with bytes `[0x80, 0x08 | c]`, `c` being
that full stored value; the byte sent is never just the bit that was changed. -/
theorem toggle_sequence_transmits_accumulated_flags (w : World)
    (hinit : w.lcd.initialized ≠ 0) (hc : w.lcd.displaycontrol < 256)
    (ts : List Toggle) (t : Toggle) :
    (t.run (run_toggles w ts)).lcd.displaycontrol
        = accumulate w.lcd.displaycontrol (ts ++ [t]) ∧
    (t.run (run_toggles w ts)).trace = (run_toggles w ts).trace ++
      [Event.transmit w.lcd.hi2c (0x3E <<< 1)
        [0x80, 0x08 ||| accumulate w.lcd.displaycontrol (ts ++ [t])] 100] ∧
    0x08 ||| accumulate w.lcd.displaycontrol (ts ++ [t]) ≠ t.bit := by
  have hl := run_toggles_lcd (ts ++ [t]) w hc
  rw [run_toggles_snoc] at hl
  have hl0 := run_toggles_lcd ts w hc
  have hlt := accumulate_lt (ts ++ [t]) _ hc
  have hi : (run_toggles w ts).lcd.initialized ≠ 0 := by rw [hl0]; exact hinit
  refine ⟨by rw [hl], ?_, ?_⟩
  · rw [Toggle.run_trace t _ hi, hl, hl0]
    simp only [u8_of_lt (or_lt_256 (show 0x08 < 256 by decide) hlt)]
  · have h8 := two_pow_le_or 3 (accumulate w.lcd.displaycontrol (ts ++ [t]))
    have hb : t.bit < 8 := by cases t <;> decide
    norm_num at h8
    omega

/-- A concrete run for C1: from flags 0x04, `cursor`, `no_display`, then `blink` sends
`[0x80, 0x0B]`. -/
theorem toggle_sequence_transmits_accumulated_flags_witness :
    ((⟨⟨0, 0x04, 0, 1, 2, 0, 0x62, 7⟩, []⟩ : World).lcd.initialized ≠ 0 ∧
      (⟨⟨0, 0x04, 0, 1, 2, 0, 0x62, 7⟩, []⟩ : World).lcd.displaycontrol < 256) ∧
    (Toggle.blink.run (run_toggles ⟨⟨0, 0x04, 0, 1, 2, 0, 0x62, 7⟩, []⟩
        [Toggle.cursor, Toggle.no_display])).lcd.displaycontrol = 0x03 ∧
    (Toggle.blink.run (run_toggles ⟨⟨0, 0x04, 0, 1, 2, 0, 0x62, 7⟩, []⟩
        [Toggle.cursor, Toggle.no_display])).trace =
      (run_toggles ⟨⟨0, 0x04, 0, 1, 2, 0, 0x62, 7⟩, []⟩
        [Toggle.cursor, Toggle.no_display]).trace ++
        [Event.transmit 7 0x7C [0x80, 0x0B] 100] ∧
    0x0B ≠ Toggle.blink.bit :=
  ⟨⟨by decide, by decide⟩,
    toggle_sequence_transmits_accumulated_flags ⟨⟨0, 0x04, 0, 1, 2, 0, 0x62, 7⟩, []⟩
      (by decide) (by decide) [Toggle.cursor, Toggle.no_display] Toggle.blink⟩

/-- C2: each of the six toggles is idempotent in every device state: a second application
leaves the device structure (so `displaycontrol`) as the first left it, and appends to the
trace the same events as the first did. -/
theorem toggle_twice_idempotent (w : World) (t : Toggle) :
    (t.run (t.run w)).lcd.displaycontrol = (t.run w).lcd.displaycontrol ∧
    (t.run (t.run w)).lcd = (t.run w).lcd ∧
    (t.run w).trace = w.trace ++ emitted w (t.run w) ∧
    (t.run (t.run w)).trace = (t.run w).trace ++ emitted (t.run w) (t.run (t.run w)) ∧
    emitted (t.run w) (t.run (t.run w)) = emitted w (t.run w) := by
  have hl := Toggle.run_run_lcd t w
  have h1 := Toggle.run_trace_any t w
  have h2 := Toggle.run_trace_any t (t.run w)
  have hf := Toggle.run_frame t w
  have hi : (t.run w).lcd.initialized = w.lcd.initialized := by rw [hf]
  have hh : (t.run w).lcd.hi2c = w.lcd.hi2c := by rw [hf]
  rw [hl, hi, hh] at h2
  have e1 : emitted w (t.run w) = (if w.lcd.initialized = 0 then []
       else [Event.transmit w.lcd.hi2c (0x3E <<< 1)
        [0x80, u8 (0x08 ||| (t.run w).lcd.displaycontrol)] 100]) := by
    unfold emitted; rw [h1, List.drop_left]
  have e2 : emitted (t.run w) (t.run (t.run w)) = (if w.lcd.initialized = 0 then []
       else [Event.transmit w.lcd.hi2c (0x3E <<< 1)
        [0x80, u8 (0x08 ||| (t.run w).lcd.displaycontrol)] 100]) := by
    unfold emitted; rw [h2, List.drop_left]
  refine ⟨by rw [hl], hl, ?_, ?_, ?_⟩
  · rw [e1]; exact h1
  · rw [e2]; exact h2
  · rw [e1, e2]

/-- C3: in an initialised state, for 8-bit `col` and any `row`, `rgb_lcd_set_cursor`
appends exactly one bus write to the LCD controller, `[0x80, col | 0x80]` for row 0 and
`[0x80, col | 0xC0]` for any other row, and leaves the device structure unchanged;
`set_cursor(5, 0)` sends `[0x80, 0x85]` and `set_cursor(5, 1)` sends `[0x80, 0xC5]`. -/
theorem set_cursor_frame (w : World) (hinit : w.lcd.initialized ≠ 0) (col row : Nat)
    (hcol : col < 256) :
    (rgb_lcd_set_cursor w col row).lcd = w.lcd ∧
    (rgb_lcd_set_cursor w col row).trace = w.trace ++
      [Event.transmit w.lcd.hi2c (0x3E <<< 1)
        [0x80, if row = 0 then col ||| 0x80 else col ||| 0xC0] 100] ∧
    (rgb_lcd_set_cursor w 5 0).trace = w.trace ++
      [Event.transmit w.lcd.hi2c (0x3E <<< 1) [0x80, 0x85] 100] ∧
    (rgb_lcd_set_cursor w 5 1).trace = w.trace ++
      [Event.transmit w.lcd.hi2c (0x3E <<< 1) [0x80, 0xC5] 100] := by
  refine ⟨by simp [rgb_lcd_set_cursor], ?_, ?_, ?_⟩
  · by_cases hr : row = 0
    · simp [rgb_lcd_set_cursor, i2c_send_bytes, hinit, HAL_I2C_Master_Transmit, LCD_ADDRESS,
        hr, u8]
      exact or_lt_256 hcol (by decide)
    · simp [rgb_lcd_set_cursor, i2c_send_bytes, hinit, HAL_I2C_Master_Transmit, LCD_ADDRESS,
        hr, u8]
      exact or_lt_256 hcol (by decide)
  · simp [rgb_lcd_set_cursor, i2c_send_bytes, hinit, HAL_I2C_Master_Transmit, LCD_ADDRESS, u8]
  · simp [rgb_lcd_set_cursor, i2c_send_bytes, hinit, HAL_I2C_Master_Transmit, LCD_ADDRESS, u8]

/-- A concrete run for C3: column 15 of the second row is addressed by `[0x80, 0xCF]`. -/
theorem set_cursor_frame_witness :
    ((⟨⟨0x08, 0x04, 0x02, 1, 2, 0, 0x62, 7⟩, []⟩ : World).lcd.initialized ≠ 0 ∧ 15 < 256) ∧
    (rgb_lcd_set_cursor ⟨⟨0x08, 0x04, 0x02, 1, 2, 0, 0x62, 7⟩, []⟩ 15 1).lcd =
      ⟨0x08, 0x04, 0x02, 1, 2, 0, 0x62, 7⟩ ∧
    (rgb_lcd_set_cursor ⟨⟨0x08, 0x04, 0x02, 1, 2, 0, 0x62, 7⟩, []⟩ 15 1).trace =
      [] ++ [Event.transmit 7 0x7C [0x80, 0xCF] 100] ∧
    (rgb_lcd_set_cursor ⟨⟨0x08, 0x04, 0x02, 1, 2, 0, 0x62, 7⟩, []⟩ 5 0).trace =
      [] ++ [Event.transmit 7 0x7C [0x80, 0x85] 100] ∧
    (rgb_lcd_set_cursor ⟨⟨0x08, 0x04, 0x02, 1, 2, 0, 0x62, 7⟩, []⟩ 5 1).trace =
      [] ++ [Event.transmit 7 0x7C [0x80, 0xC5] 100] :=
  ⟨⟨by decide, by decide⟩,
    set_cursor_frame ⟨⟨0x08, 0x04, 0x02, 1, 2, 0, 0x62, 7⟩, []⟩ (by decide) 15 1 (by decide)⟩

/-- C4: in every state reached from `rgb_lcd_init` by any sequence of other public calls,
`rgb_lcd_set_rgb(r, g, b)` appends exactly three 2-byte register writes and changes no
field: `[0x04, r], [0x03, g], [0x02, b]` to 7-bit address 0x62 when the init probe failed,
`[0x06, r], [0x07, g], [0x08, b]` to 7-bit address 0x30 when it succeeded.  The map used
depends on the probe outcome alone, so one instance never mixes the two. -/
theorem set_rgb_uses_detected_register_map (w0 : World) (cols lines dotsize hi2c : Nat)
    (status : HAL_StatusTypeDef) (ops : List Op) (r g b : Nat)
    (hr : r < 256) (hg : g < 256) (hb : b < 256) :
    (rgb_lcd_set_rgb (run_ops (rgb_lcd_init w0 cols lines dotsize hi2c status) ops) r g b).lcd
      = (run_ops (rgb_lcd_init w0 cols lines dotsize hi2c status) ops).lcd ∧
    (rgb_lcd_set_rgb (run_ops (rgb_lcd_init w0 cols lines dotsize hi2c status) ops) r g b).trace
      = (run_ops (rgb_lcd_init w0 cols lines dotsize hi2c status) ops).trace ++
        (if status = HAL_StatusTypeDef.HAL_OK then
          [Event.transmit hi2c (0x30 <<< 1) [0x06, r] 100,
           Event.transmit hi2c (0x30 <<< 1) [0x07, g] 100,
           Event.transmit hi2c (0x30 <<< 1) [0x08, b] 100]
         else
          [Event.transmit hi2c (0x62 <<< 1) [0x04, r] 100,
           Event.transmit hi2c (0x62 <<< 1) [0x03, g] 100,
           Event.transmit hi2c (0x62 <<< 1) [0x02, b] 100]) := by
  have hf := reachable_fixed_fields w0 cols lines dotsize hi2c status ops
  simp only [fixed_fields, Prod.mk.injEq] at hf
  obtain ⟨-, hi, -, -, ha, hh⟩ := hf
  refine ⟨rgb_lcd_set_rgb_lcd _ _ _ _, ?_⟩
  rw [rgb_lcd_set_rgb_trace _ _ _ _ (by rw [hi]; decide), ha, hh]
  cases status <;> simp [reg_frame, u8_of_lt hr, u8_of_lt hg, u8_of_lt hb]

/-- A concrete run for C4: a legacy-chip instance, after a few calls, sets the colour
(1, 2, 3) through registers 0x04, 0x03, 0x02 at the 8-bit address 0xC4. -/
theorem set_rgb_uses_detected_register_map_witness :
    (1 < 256 ∧ 2 < 256 ∧ 3 < 256) ∧
    (rgb_lcd_set_rgb (run_ops (rgb_lcd_init ⟨⟨0, 0, 0, 0, 0, 0, 0, 0⟩, []⟩ 16 2 0 7
        HAL_StatusTypeDef.HAL_ERROR) [Op.cursor, Op.write_string [72, 105, 0], Op.blink_led])
        1 2 3).lcd
      = (run_ops (rgb_lcd_init ⟨⟨0, 0, 0, 0, 0, 0, 0, 0⟩, []⟩ 16 2 0 7
          HAL_StatusTypeDef.HAL_ERROR)
          [Op.cursor, Op.write_string [72, 105, 0], Op.blink_led]).lcd ∧
    (rgb_lcd_set_rgb (run_ops (rgb_lcd_init ⟨⟨0, 0, 0, 0, 0, 0, 0, 0⟩, []⟩ 16 2 0 7
        HAL_StatusTypeDef.HAL_ERROR) [Op.cursor, Op.write_string [72, 105, 0], Op.blink_led])
        1 2 3).trace
      = (run_ops (rgb_lcd_init ⟨⟨0, 0, 0, 0, 0, 0, 0, 0⟩, []⟩ 16 2 0 7
          HAL_StatusTypeDef.HAL_ERROR)
          [Op.cursor, Op.write_string [72, 105, 0], Op.blink_led]).trace ++
        [Event.transmit 7 0xC4 [0x04, 1] 100,
         Event.transmit 7 0xC4 [0x03, 2] 100,
         Event.transmit 7 0xC4 [0x02, 3] 100] :=
  ⟨⟨by decide, by decide, by decide⟩,
    set_rgb_uses_detected_register_map ⟨⟨0, 0, 0, 0, 0, 0, 0, 0⟩, []⟩ 16 2 0 7
      HAL_StatusTypeDef.HAL_ERROR [Op.cursor, Op.write_string [72, 105, 0], Op.blink_led]
      1 2 3 (by decide) (by decide) (by decide)⟩

/-- C5: in every device state, `rgb_lcd_set_color(index)` for an index in 0..3 is
`rgb_lcd_set_rgb` on the palette triple of that index (white, red, green, blue at full
intensity), so `set_color(1)` is `set_rgb(255, 0, 0)`; for every index above 3, such as 4,
it appends no event and changes no field. -/
theorem set_color_palette (w : World) :
    rgb_lcd_set_color w 0 = rgb_lcd_set_rgb w 255 255 255 ∧
    rgb_lcd_set_color w 1 = rgb_lcd_set_rgb w 255 0 0 ∧
    rgb_lcd_set_color w 2 = rgb_lcd_set_rgb w 0 255 0 ∧
    rgb_lcd_set_color w 3 = rgb_lcd_set_rgb w 0 0 255 ∧
    rgb_lcd_set_color w 4 = w ∧
    ∀ color, 3 < color → rgb_lcd_set_color w color = w := by
  refine ⟨rfl, rfl, rfl, rfl, rfl, ?_⟩
  intro color h
  simp [rgb_lcd_set_color, h]

/-- A concrete run for C5: index 200 in an initialised legacy-chip state changes
nothing. -/
theorem set_color_palette_witness :
    3 < 200 ∧
    rgb_lcd_set_color ⟨⟨0x08, 0x04, 0x02, 1, 2, 0, 0x62, 7⟩, [Event.delay 2]⟩ 200 =
      ⟨⟨0x08, 0x04, 0x02, 1, 2, 0, 0x62, 7⟩, [Event.delay 2]⟩ :=
  ⟨by decide,
    (set_color_palette ⟨⟨0x08, 0x04, 0x02, 1, 2, 0, 0x62, 7⟩, [Event.delay 2]⟩).2.2.2.2.2
      200 (by decide)⟩

/-- C6: in an initialised state, for a string of non-NUL bytes `cs` followed by its NUL
terminator, `rgb_lcd_write_string` appends exactly one bus write to the LCD controller per
byte, the 2-byte frame `[0x40, c]`, in string order and nothing else, and changes no field;
for "AB" the writes are `[0x40, 0x41]` then `[0x40, 0x42]`. -/
theorem write_string_one_frame_per_char (w : World) (hinit : w.lcd.initialized ≠ 0)
    (cs rest : List Nat) (hcs : ∀ c ∈ cs, c ≠ 0 ∧ c < 256) :
    (rgb_lcd_write_string w (cs ++ 0 :: rest)).lcd = w.lcd ∧
    (rgb_lcd_write_string w (cs ++ 0 :: rest)).trace = w.trace ++
      cs.map (fun c => Event.transmit w.lcd.hi2c (0x3E <<< 1) [0x40, c] 100) ∧
    (cs.map (fun c => Event.transmit w.lcd.hi2c (0x3E <<< 1) [0x40, c] 100)).length
      = cs.length ∧
    (rgb_lcd_write_string w [0x41, 0x42, 0]).trace = w.trace ++
      [Event.transmit w.lcd.hi2c (0x3E <<< 1) [0x40, 0x41] 100,
       Event.transmit w.lcd.hi2c (0x3E <<< 1) [0x40, 0x42] 100] := by
  refine ⟨rgb_lcd_write_string_lcd _ _, ?_, List.length_map _ _, ?_⟩
  · induction cs generalizing w with
    | nil => simp [rgb_lcd_write_string]
    | cons c cs ih =>
      have hc := hcs c (List.mem_cons_self _ _)
      have ih2 := ih (rgb_lcd_write_char w c) (by simpa using hinit)
        (fun d hd => hcs d (List.mem_cons_of_mem _ hd))
      rw [List.cons_append, rgb_lcd_write_string, if_neg hc.1, ih2,
        rgb_lcd_write_char_trace w c hinit, u8_of_lt hc.2]
      simp
  · simp [rgb_lcd_write_string, rgb_lcd_write_char_trace, hinit, u8]

/-- A concrete run for C6: "Hi!" followed by NUL and stale memory gives three frames. -/
theorem write_string_one_frame_per_char_witness :
    ((⟨⟨0x08, 0x04, 0x02, 1, 2, 0, 0x62, 7⟩, []⟩ : World).lcd.initialized ≠ 0 ∧
      ∀ c ∈ [72, 105, 33], c ≠ 0 ∧ c < 256) ∧
    (rgb_lcd_write_string ⟨⟨0x08, 0x04, 0x02, 1, 2, 0, 0x62, 7⟩, []⟩
        ([72, 105, 33] ++ 0 :: [88, 0])).lcd = ⟨0x08, 0x04, 0x02, 1, 2, 0, 0x62, 7⟩ ∧
    (rgb_lcd_write_string ⟨⟨0x08, 0x04, 0x02, 1, 2, 0, 0x62, 7⟩, []⟩
        ([72, 105, 33] ++ 0 :: [88, 0])).trace = [] ++
      [Event.transmit 7 0x7C [0x40, 72] 100, Event.transmit 7 0x7C [0x40, 105] 100,
       Event.transmit 7 0x7C [0x40, 33] 100] ∧
    [Event.transmit 7 0x7C [0x40, 72] 100, Event.transmit 7 0x7C [0x40, 105] 100,
       Event.transmit 7 0x7C [0x40, 33] 100].length = 3 ∧
    (rgb_lcd_write_string ⟨⟨0x08, 0x04, 0x02, 1, 2, 0, 0x62, 7⟩, []⟩ [0x41, 0x42, 0]).trace
      = [] ++ [Event.transmit 7 0x7C [0x40, 0x41] 100, Event.transmit 7 0x7C [0x40, 0x42] 100] :=
  ⟨⟨by decide, by decide⟩,
    write_string_one_frame_per_char ⟨⟨0x08, 0x04, 0x02, 1, 2, 0, 0x62, 7⟩, []⟩ (by decide)
      [72, 105, 33] [88, 0] (by decide)⟩

/-- C7: in an initialised state, for every location and every charmap of eight bytes,
`rgb_lcd_create_char` appends exactly two bus writes to the LCD controller, first the
command `[0x80, 0x40 | ((location & 7) << 3)]`, then one 9-byte frame
`[0x40, charmap[0], ..., charmap[7]]`, and changes no field; the command byte lies in
0x40..0x78. -/
theorem create_char_two_frames (w : World) (hinit : w.lcd.initialized ≠ 0)
    (location : Nat) (charmap : Nat → Nat) (hmap : ∀ i, i < 8 → charmap i < 256) :
    (rgb_lcd_create_char w location charmap).lcd = w.lcd ∧
    (rgb_lcd_create_char w location charmap).trace = w.trace ++
      [Event.transmit w.lcd.hi2c (0x3E <<< 1) [0x80, 0x40 ||| ((location &&& 7) <<< 3)] 100,
       Event.transmit w.lcd.hi2c (0x3E <<< 1)
        [0x40, charmap 0, charmap 1, charmap 2, charmap 3, charmap 4, charmap 5, charmap 6,
          charmap 7] 100] ∧
    0x40 ≤ 0x40 ||| ((location &&& 7) <<< 3) ∧ 0x40 ||| ((location &&& 7) <<< 3) ≤ 0x78 := by
  have hb := cgram_byte_bounds location
  have h7 : u8 (location &&& 7) = location &&& 7 :=
    u8_of_lt (lt_of_le_of_lt Nat.and_le_right (by decide))
  have hcmd : u8 (0x40 ||| ((location &&& 7) <<< 3)) = 0x40 ||| ((location &&& 7) <<< 3) :=
    u8_of_lt (lt_of_le_of_lt hb.2 (by decide))
  refine ⟨by simp [rgb_lcd_create_char], ?_, hb⟩
  unfold rgb_lcd_create_char
  simp only [create_char_fill_eq, h7, LCD_SETCGRAMADDR, hcmd, lcd_command,
    u8_of_lt (hmap 0 (by decide)), u8_of_lt (hmap 1 (by decide)),
    u8_of_lt (hmap 2 (by decide)), u8_of_lt (hmap 3 (by decide)),
    u8_of_lt (hmap 4 (by decide)), u8_of_lt (hmap 5 (by decide)),
    u8_of_lt (hmap 6 (by decide)), u8_of_lt (hmap 7 (by decide))]
  simp [i2c_send_bytes, hinit, HAL_I2C_Master_Transmit, LCD_ADDRESS, u8]

/-- A concrete run for C7: location 10 with rows 17, 18, ..., 24 selects CGRAM address
0x50 and sends the eight rows in one frame. -/
theorem create_char_two_frames_witness :
    ((⟨⟨0x08, 0x04, 0x02, 1, 2, 0, 0x62, 7⟩, []⟩ : World).lcd.initialized ≠ 0 ∧
      ∀ i, i < 8 → i + 17 < 256) ∧
    (rgb_lcd_create_char ⟨⟨0x08, 0x04, 0x02, 1, 2, 0, 0x62, 7⟩, []⟩ 10
        (fun i => i + 17)).lcd = ⟨0x08, 0x04, 0x02, 1, 2, 0, 0x62, 7⟩ ∧
    (rgb_lcd_create_char ⟨⟨0x08, 0x04, 0x02, 1, 2, 0, 0x62, 7⟩, []⟩ 10
        (fun i => i + 17)).trace = [] ++
      [Event.transmit 7 0x7C [0x80, 0x50] 100,
       Event.transmit 7 0x7C [0x40, 17, 18, 19, 20, 21, 22, 23, 24] 100] ∧
    0x40 ≤ 0x50 ∧ 0x50 ≤ 0x78 :=
  ⟨⟨by decide, fun i hi => by omega⟩,
    create_char_two_frames ⟨⟨0x08, 0x04, 0x02, 1, 2, 0, 0x62, 7⟩, []⟩ (by decide) 10
      (fun i => i + 17) (fun i hi => by show i + 17 < 256; omega)⟩

/-- C8: in every device state, for every charmap and every location,
`rgb_lcd_create_char(location, charmap)` gives the same trace and device structure as
`rgb_lcd_create_char(location & 7, charmap)`; location 9 behaves as location 1. -/
theorem create_char_masks_location (w : World) (location : Nat) (charmap : Nat → Nat) :
    rgb_lcd_create_char w location charmap = rgb_lcd_create_char w (location &&& 7) charmap ∧
    rgb_lcd_create_char w 9 charmap = rgb_lcd_create_char w 1 charmap := by
  refine ⟨?_, rfl⟩
  simp [rgb_lcd_create_char, Nat.and_assoc]

/-- C9: for every prior state, all arguments and either probe outcome, the events of
`rgb_lcd_init` begin: delay 50, function-set frame, delay 5, function-set frame, delay 1,
function-set frame, function-set frame, and only then the display-control frame
`[0x80, 0x0C]`.  Each function-set frame is `[0x80, 0x20 | f]` to the LCD controller, with
`f` the stored `displayfunction`: 0x08 when `lines > 1`, 0x04 when `lines = 1` and `dotsize`
is not 0, and 0 otherwise (so the byte is 0x28, 0x24 or 0x20). -/
theorem init_begins_with_four_function_sets (w : World) (cols lines dotsize hi2c : Nat)
    (status : HAL_StatusTypeDef) :
    (rgb_lcd_init w cols lines dotsize hi2c status).trace =
      w.trace ++ emitted w (rgb_lcd_init w cols lines dotsize hi2c status) ∧
    (emitted w (rgb_lcd_init w cols lines dotsize hi2c status)).take 8 =
      [Event.delay 50,
       Event.transmit hi2c (0x3E <<< 1)
        [0x80, 0x20 ||| (rgb_lcd_init w cols lines dotsize hi2c status).lcd.displayfunction] 100,
       Event.delay 5,
       Event.transmit hi2c (0x3E <<< 1)
        [0x80, 0x20 ||| (rgb_lcd_init w cols lines dotsize hi2c status).lcd.displayfunction] 100,
       Event.delay 1,
       Event.transmit hi2c (0x3E <<< 1)
        [0x80, 0x20 ||| (rgb_lcd_init w cols lines dotsize hi2c status).lcd.displayfunction] 100,
       Event.transmit hi2c (0x3E <<< 1)
        [0x80, 0x20 ||| (rgb_lcd_init w cols lines dotsize hi2c status).lcd.displayfunction] 100,
       Event.transmit hi2c (0x3E <<< 1) [0x80, 0x0C] 100] ∧
    (rgb_lcd_init w cols lines dotsize hi2c status).lcd.displayfunction =
      (if lines > 1 then 0x08 else if lines = 1 ∧ dotsize ≠ 0 then 0x04 else 0) ∧
    (0x20 ||| (rgb_lcd_init w cols lines dotsize hi2c status).lcd.displayfunction = 0x28 ∨
     0x20 ||| (rgb_lcd_init w cols lines dotsize hi2c status).lcd.displayfunction = 0x24 ∨
     0x20 ||| (rgb_lcd_init w cols lines dotsize hi2c status).lcd.displayfunction = 0x20) := by
  have he := rgb_lcd_init_emitted w cols lines dotsize hi2c status
  have hq := rgb_lcd_init_eq w cols lines dotsize hi2c status
  have hdf : (rgb_lcd_init w cols lines dotsize hi2c status).lcd.displayfunction =
      function_flags lines dotsize := by rw [hq]
  refine ⟨?_, ?_, ?_, ?_⟩
  · rw [he, hq]; simp
  · rw [he, hdf]; simp [lcd_frame]
  · rw [hdf]; rfl
  · rw [hdf]; unfold function_flags
    split
    · left; rfl
    · split
      · right; left; rfl
      · right; right; rfl

/-- C10: for all arguments, the events of `rgb_lcd_init` from the bus probe on are: after a
successful probe, register write `[0x00, 0x07]`, delay 1, register write `[0x04, 0x15]`,
then white through the newer map `[0x06, 255], [0x07, 255], [0x08, 255]`, all to 7-bit
address 0x30, which is stored as the chip address; after a failed probe, register writes
`[0x00, 0x00], [0x08, 0xFF], [0x01, 0x20]`, then white through the legacy map
`[0x04, 255], [0x03, 255], [0x02, 255]`, all to 7-bit address 0x62, which is stored.  Either
way the function runs to its end and leaves `initialized` set. -/
theorem init_after_probe (w : World) (cols lines dotsize hi2c : Nat) :
    ((rgb_lcd_init w cols lines dotsize hi2c HAL_StatusTypeDef.HAL_OK).lcd.rgb_chip_addr = 0x30 ∧
     (rgb_lcd_init w cols lines dotsize hi2c HAL_StatusTypeDef.HAL_OK).lcd.initialized = 1 ∧
     (emitted w (rgb_lcd_init w cols lines dotsize hi2c HAL_StatusTypeDef.HAL_OK)).drop 11 =
      [Event.transmit hi2c (0x30 <<< 1) [0x00] 100,
       Event.transmit hi2c (0x30 <<< 1) [0x00, 0x07] 100,
       Event.delay 1,
       Event.transmit hi2c (0x30 <<< 1) [0x04, 0x15] 100,
       Event.transmit hi2c (0x30 <<< 1) [0x06, 255] 100,
       Event.transmit hi2c (0x30 <<< 1) [0x07, 255] 100,
       Event.transmit hi2c (0x30 <<< 1) [0x08, 255] 100]) ∧
    ((rgb_lcd_init w cols lines dotsize hi2c HAL_StatusTypeDef.HAL_ERROR).lcd.rgb_chip_addr
        = 0x62 ∧
     (rgb_lcd_init w cols lines dotsize hi2c HAL_StatusTypeDef.HAL_ERROR).lcd.initialized = 1 ∧
     (emitted w (rgb_lcd_init w cols lines dotsize hi2c HAL_StatusTypeDef.HAL_ERROR)).drop 11 =
      [Event.transmit hi2c (0x30 <<< 1) [0x00] 100,
       Event.transmit hi2c (0x62 <<< 1) [0x00, 0x00] 100,
       Event.transmit hi2c (0x62 <<< 1) [0x08, 0xFF] 100,
       Event.transmit hi2c (0x62 <<< 1) [0x01, 0x20] 100,
       Event.transmit hi2c (0x62 <<< 1) [0x04, 255] 100,
       Event.transmit hi2c (0x62 <<< 1) [0x03, 255] 100,
       Event.transmit hi2c (0x62 <<< 1) [0x02, 255] 100]) ∧
    (∀ status, (rgb_lcd_init w cols lines dotsize hi2c status).trace =
      w.trace ++ emitted w (rgb_lcd_init w cols lines dotsize hi2c status)) := by
  refine ⟨⟨?_, ?_, ?_⟩, ⟨?_, ?_, ?_⟩, ?_⟩
  · rw [rgb_lcd_init_eq]; rfl
  · rw [rgb_lcd_init_eq]
  · rw [rgb_lcd_init_emitted]; simp [reg_frame]
  · rw [rgb_lcd_init_eq]; rfl
  · rw [rgb_lcd_init_eq]
  · rw [rgb_lcd_init_emitted]; simp [reg_frame]
  · intro status
    rw [rgb_lcd_init_emitted, rgb_lcd_init_eq]; simp

/-- C11: for all arguments and either probe outcome, the events of `rgb_lcd_init` after the
fourth function-set frame are: display-control frame `[0x80, 0x0C]`, clear frame
`[0x80, 0x01]`, delay 2, entry-mode frame `[0x80, 0x06]`, all to the LCD controller, then
the probe, one write of the single byte 0x00 to 7-bit address 0x30 with timeout 100.  The
state returned has `displaycontrol = 0x04` and `displaymode = 0x02`. -/
theorem init_between_function_set_and_probe (w : World) (cols lines dotsize hi2c : Nat)
    (status : HAL_StatusTypeDef) :
    (rgb_lcd_init w cols lines dotsize hi2c status).trace =
      w.trace ++ emitted w (rgb_lcd_init w cols lines dotsize hi2c status) ∧
    ((emitted w (rgb_lcd_init w cols lines dotsize hi2c status)).drop 7).take 5 =
      [Event.transmit hi2c (0x3E <<< 1) [0x80, 0x0C] 100,
       Event.transmit hi2c (0x3E <<< 1) [0x80, 0x01] 100,
       Event.delay 2,
       Event.transmit hi2c (0x3E <<< 1) [0x80, 0x06] 100,
       Event.transmit hi2c (0x30 <<< 1) [0x00] 100] ∧
    (rgb_lcd_init w cols lines dotsize hi2c status).lcd.displaycontrol = 0x04 ∧
    (rgb_lcd_init w cols lines dotsize hi2c status).lcd.displaymode = 0x02 := by
  refine ⟨?_, ?_, ?_, ?_⟩
  · rw [rgb_lcd_init_emitted, rgb_lcd_init_eq]; simp
  · rw [rgb_lcd_init_emitted]; simp [lcd_frame]
  · rw [rgb_lcd_init_eq]
  · rw [rgb_lcd_init_eq]

/-- C12: in a device state whose `initialized` flag is 0, every public call other than
`rgb_lcd_init` appends no bus write to the trace (the only events are the delays of
`clear` and `home`). -/
theorem uninitialised_ops_write_nothing (w : World) (h0 : w.lcd.initialized = 0) (o : Op) :
    (o.run w).trace = w.trace ++ emitted w (o.run w) ∧
    bus_addresses (emitted w (o.run w)) = [] := by
  unfold emitted
  rcases Op.run_trace_uninit o w h0 with h | h
  · rw [h]; simp [bus_addresses]
  · rw [h]; simp [bus_addresses]

/-- A concrete run for C12: `create_char` on a zeroed structure leaves the trace as it
was. -/
theorem uninitialised_ops_write_nothing_witness :
    (⟨⟨0, 0, 0, 0, 0, 0, 0, 0⟩, [Event.delay 1]⟩ : World).lcd.initialized = 0 ∧
    (Op.run (Op.create_char 3 (fun i => i)) ⟨⟨0, 0, 0, 0, 0, 0, 0, 0⟩, [Event.delay 1]⟩).trace
      = [Event.delay 1] ++ emitted ⟨⟨0, 0, 0, 0, 0, 0, 0, 0⟩, [Event.delay 1]⟩
          (Op.run (Op.create_char 3 (fun i => i)) ⟨⟨0, 0, 0, 0, 0, 0, 0, 0⟩, [Event.delay 1]⟩) ∧
    bus_addresses (emitted ⟨⟨0, 0, 0, 0, 0, 0, 0, 0⟩, [Event.delay 1]⟩
      (Op.run (Op.create_char 3 (fun i => i)) ⟨⟨0, 0, 0, 0, 0, 0, 0, 0⟩, [Event.delay 1]⟩)) = [] :=
  ⟨by decide,
    uninitialised_ops_write_nothing ⟨⟨0, 0, 0, 0, 0, 0, 0, 0⟩, [Event.delay 1]⟩ (by decide)
      (Op.create_char 3 (fun i => i))⟩

/-- C13, the claim as stated fails: on a zeroed structure (`initialized = 0`)
`rgb_lcd_display` still stores the display bit, so `displaycontrol` goes from 0 to 0x04. -/
theorem uninitialised_display_changes_control_flags :
    (⟨⟨0, 0, 0, 0, 0, 0, 0, 0⟩, []⟩ : World).lcd.initialized = 0 ∧
    (⟨⟨0, 0, 0, 0, 0, 0, 0, 0⟩, []⟩ : World).lcd.displaycontrol = 0 ∧
    (rgb_lcd_display ⟨⟨0, 0, 0, 0, 0, 0, 0, 0⟩, []⟩).lcd.displaycontrol = 0x04 ∧
    (Op.run Op.display ⟨⟨0, 0, 0, 0, 0, 0, 0, 0⟩, []⟩).lcd.displaycontrol ≠
      (⟨⟨0, 0, 0, 0, 0, 0, 0, 0⟩, []⟩ : World).lcd.displaycontrol := by
  decide

/-- C13, amended: in a device state whose `initialized` flag is 0, every public call
other than `rgb_lcd_init` leaves `displayfunction`, `rgb_chip_addr` and `initialized`
unchanged; `displaycontrol` is unchanged by every call except the six
display/cursor/blink toggles, which still set or clear their bit in it, and `displaymode`
is unchanged by every call except the four direction/autoscroll calls, which still set or
clear their bit in it. -/
theorem uninitialised_ops_state_effect (w : World) (h0 : w.lcd.initialized = 0)
    (hdc : w.lcd.displaycontrol < 256) (hdm : w.lcd.displaymode < 256) (o : Op) :
    (o.run w).lcd.displayfunction = w.lcd.displayfunction ∧
    (o.run w).lcd.rgb_chip_addr = w.lcd.rgb_chip_addr ∧
    (o.run w).lcd.initialized = 0 ∧
    (o.run w).lcd.displaycontrol = edit_flags o.control_edit w.lcd.displaycontrol ∧
    (o.run w).lcd.displaymode = edit_flags o.entry_edit w.lcd.displaymode ∧
    (o.control_edit = none → (o.run w).lcd.displaycontrol = w.lcd.displaycontrol) ∧
    (o.entry_edit = none → (o.run w).lcd.displaymode = w.lcd.displaymode) := by
  have h := Op.run_lcd o w hdc hdm
  refine ⟨by rw [h], by rw [h], by rw [h]; exact h0, by rw [h], by rw [h], ?_, ?_⟩
  · intro hn; rw [h, hn]; rfl
  · intro hn; rw [h, hn]; rfl

/-- A concrete run for C13 as amended: on a structure with `initialized = 0` and flags
0x05 / 0x03, `no_display` clears bit 0x04 of `displaycontrol` and leaves the rest. -/
theorem uninitialised_ops_state_effect_witness :
    ((⟨⟨0x08, 0x05, 0x03, 0, 2, 0, 0x62, 7⟩, []⟩ : World).lcd.initialized = 0 ∧
      (⟨⟨0x08, 0x05, 0x03, 0, 2, 0, 0x62, 7⟩, []⟩ : World).lcd.displaycontrol < 256 ∧
      (⟨⟨0x08, 0x05, 0x03, 0, 2, 0, 0x62, 7⟩, []⟩ : World).lcd.displaymode < 256) ∧
    (Op.run Op.no_display ⟨⟨0x08, 0x05, 0x03, 0, 2, 0, 0x62, 7⟩, []⟩).lcd.displayfunction
      = 0x08 ∧
    (Op.run Op.no_display ⟨⟨0x08, 0x05, 0x03, 0, 2, 0, 0x62, 7⟩, []⟩).lcd.rgb_chip_addr
      = 0x62 ∧
    (Op.run Op.no_display ⟨⟨0x08, 0x05, 0x03, 0, 2, 0, 0x62, 7⟩, []⟩).lcd.initialized = 0 ∧
    (Op.run Op.no_display ⟨⟨0x08, 0x05, 0x03, 0, 2, 0, 0x62, 7⟩, []⟩).lcd.displaycontrol
      = 0x01 ∧
    (Op.run Op.no_display ⟨⟨0x08, 0x05, 0x03, 0, 2, 0, 0x62, 7⟩, []⟩).lcd.displaymode
      = 0x03 ∧
    (Op.control_edit Op.no_display = none →
      (Op.run Op.no_display ⟨⟨0x08, 0x05, 0x03, 0, 2, 0, 0x62, 7⟩, []⟩).lcd.displaycontrol
        = 0x05) ∧
    (Op.entry_edit Op.no_display = none →
      (Op.run Op.no_display ⟨⟨0x08, 0x05, 0x03, 0, 2, 0, 0x62, 7⟩, []⟩).lcd.displaymode
        = 0x03) :=
  ⟨⟨by decide, by decide, by decide⟩,
    uninitialised_ops_state_effect ⟨⟨0x08, 0x05, 0x03, 0, 2, 0, 0x62, 7⟩, []⟩
      (by decide) (by decide) (by decide) Op.no_display⟩

/-- C14: every public call other than `rgb_lcd_init` leaves `displayfunction`,
`rgb_chip_addr` and `initialized` as they were, in every device state and for every
argument; so in every state reached after `rgb_lcd_init` the three fields still hold what
`rgb_lcd_init` stored. -/
theorem ops_keep_function_flags_chip_and_ready (w : World) (o : Op)
    (cols lines dotsize hi2c : Nat) (status : HAL_StatusTypeDef) (ops : List Op) :
    ((o.run w).lcd.displayfunction = w.lcd.displayfunction ∧
     (o.run w).lcd.rgb_chip_addr = w.lcd.rgb_chip_addr ∧
     (o.run w).lcd.initialized = w.lcd.initialized) ∧
    ((run_ops (rgb_lcd_init w cols lines dotsize hi2c status) ops).lcd.displayfunction =
        (rgb_lcd_init w cols lines dotsize hi2c status).lcd.displayfunction ∧
     (run_ops (rgb_lcd_init w cols lines dotsize hi2c status) ops).lcd.rgb_chip_addr =
        (rgb_lcd_init w cols lines dotsize hi2c status).lcd.rgb_chip_addr ∧
     (run_ops (rgb_lcd_init w cols lines dotsize hi2c status) ops).lcd.initialized =
        (rgb_lcd_init w cols lines dotsize hi2c status).lcd.initialized) := by
  have h1 := Op.run_fixed_fields o w
  have h2 := run_ops_fixed_fields ops (rgb_lcd_init w cols lines dotsize hi2c status)
  simp only [fixed_fields, Prod.mk.injEq] at h1 h2
  exact ⟨⟨h1.1, h1.2.2.2.2.1, h1.2.1⟩, ⟨h2.1, h2.2.2.2.2.1, h2.2.1⟩⟩

/-- C15: in an initialised state, `rgb_lcd_left_to_right` sets bit 0x02 of `displaymode`,
`rgb_lcd_right_to_left` clears it, `rgb_lcd_autoscroll` sets bit 0x01 and
`rgb_lcd_no_autoscroll` clears it; every other bit and every other field stays as it was,
and each call appends exactly one bus write to the LCD controller, `[0x80, 0x04 | e]` with
`e` the complete `displaymode` after the change. -/
theorem entry_mode_ops (w : World) (hinit : w.lcd.initialized ≠ 0)
    (hdm : w.lcd.displaymode < 256) :
    ((rgb_lcd_left_to_right w).lcd = { w.lcd with displaymode := w.lcd.displaymode ||| 0x02 } ∧
     (rgb_lcd_left_to_right w).trace = w.trace ++
       [Event.transmit w.lcd.hi2c (0x3E <<< 1)
         [0x80, 0x04 ||| (rgb_lcd_left_to_right w).lcd.displaymode] 100] ∧
     ∀ i, (w.lcd.displaymode ||| 0x02).testBit i
       = (decide (i = 1) || w.lcd.displaymode.testBit i)) ∧
    ((rgb_lcd_right_to_left w).lcd = { w.lcd with displaymode := w.lcd.displaymode &&& 0xFD } ∧
     (rgb_lcd_right_to_left w).trace = w.trace ++
       [Event.transmit w.lcd.hi2c (0x3E <<< 1)
         [0x80, 0x04 ||| (rgb_lcd_right_to_left w).lcd.displaymode] 100] ∧
     ∀ i, (w.lcd.displaymode &&& 0xFD).testBit i
       = (!decide (i = 1) && w.lcd.displaymode.testBit i)) ∧
    ((rgb_lcd_autoscroll w).lcd = { w.lcd with displaymode := w.lcd.displaymode ||| 0x01 } ∧
     (rgb_lcd_autoscroll w).trace = w.trace ++
       [Event.transmit w.lcd.hi2c (0x3E <<< 1)
         [0x80, 0x04 ||| (rgb_lcd_autoscroll w).lcd.displaymode] 100] ∧
     ∀ i, (w.lcd.displaymode ||| 0x01).testBit i
       = (decide (i = 0) || w.lcd.displaymode.testBit i)) ∧
    ((rgb_lcd_no_autoscroll w).lcd = { w.lcd with displaymode := w.lcd.displaymode &&& 0xFE } ∧
     (rgb_lcd_no_autoscroll w).trace = w.trace ++
       [Event.transmit w.lcd.hi2c (0x3E <<< 1)
         [0x80, 0x04 ||| (rgb_lcd_no_autoscroll w).lcd.displaymode] 100] ∧
     ∀ i, (w.lcd.displaymode &&& 0xFE).testBit i
       = (!decide (i = 0) && w.lcd.displaymode.testBit i)) := by
  have h2 : w.lcd.displaymode ||| 0x02 < 256 := or_lt_256 hdm (by decide)
  have h1 : w.lcd.displaymode ||| 0x01 < 256 := or_lt_256 hdm (by decide)
  have hD : w.lcd.displaymode &&& 0xFD < 256 := and_lt_256 _ hdm
  have hE : w.lcd.displaymode &&& 0xFE < 256 := and_lt_256 _ hdm
  have l1 : (rgb_lcd_left_to_right w).lcd =
      { w.lcd with displaymode := w.lcd.displaymode ||| 0x02 } := by
    simp [rgb_lcd_left_to_right, LCD_ENTRYLEFT]
    exact u8_of_lt h2
  have l2 : (rgb_lcd_right_to_left w).lcd =
      { w.lcd with displaymode := w.lcd.displaymode &&& 0xFD } := by
    simp [rgb_lcd_right_to_left, LCD_ENTRYLEFT, u8_and_wide _ _ hdm, bnot]
  have l3 : (rgb_lcd_autoscroll w).lcd =
      { w.lcd with displaymode := w.lcd.displaymode ||| 0x01 } := by
    simp [rgb_lcd_autoscroll, LCD_ENTRYSHIFTINCREMENT]
    exact u8_of_lt h1
  have l4 : (rgb_lcd_no_autoscroll w).lcd =
      { w.lcd with displaymode := w.lcd.displaymode &&& 0xFE } := by
    simp [rgb_lcd_no_autoscroll, LCD_ENTRYSHIFTINCREMENT, u8_and_wide _ _ hdm, bnot]
  refine ⟨⟨l1, ?_, fun i => testBit_or_two_pow _ 1 i⟩,
    ⟨l2, ?_, fun i => testBit_and_clear _ 1 i hdm (by decide)⟩,
    ⟨l3, ?_, fun i => testBit_or_two_pow _ 0 i⟩,
    ⟨l4, ?_, fun i => testBit_and_clear _ 0 i hdm (by decide)⟩⟩
  · rw [entry_mode_trace w hinit |>.1, l1]
    simp only [u8_of_lt (or_lt_256 (show 0x04 < 256 by decide) h2)]
  · rw [entry_mode_trace w hinit |>.2.1, l2]
    simp only [u8_of_lt (or_lt_256 (show 0x04 < 256 by decide) hD)]
  · rw [entry_mode_trace w hinit |>.2.2.1, l3]
    simp only [u8_of_lt (or_lt_256 (show 0x04 < 256 by decide) h1)]
  · rw [entry_mode_trace w hinit |>.2.2.2, l4]
    simp only [u8_of_lt (or_lt_256 (show 0x04 < 256 by decide) hE)]

/-- A concrete run for C15: from entry flags 0x02, `autoscroll` stores 0x03 and sends
`[0x80, 0x07]`; `right_to_left` stores 0x00 and sends `[0x80, 0x04]`. -/
theorem entry_mode_ops_witness :
    ((⟨⟨0x08, 0x04, 0x02, 1, 2, 0, 0x62, 7⟩, []⟩ : World).lcd.initialized ≠ 0 ∧
      (⟨⟨0x08, 0x04, 0x02, 1, 2, 0, 0x62, 7⟩, []⟩ : World).lcd.displaymode < 256) ∧
    (rgb_lcd_autoscroll ⟨⟨0x08, 0x04, 0x02, 1, 2, 0, 0x62, 7⟩, []⟩).lcd =
      ⟨0x08, 0x04, 0x03, 1, 2, 0, 0x62, 7⟩ ∧
    (rgb_lcd_autoscroll ⟨⟨0x08, 0x04, 0x02, 1, 2, 0, 0x62, 7⟩, []⟩).trace =
      [] ++ [Event.transmit 7 0x7C [0x80, 0x07] 100] ∧
    (rgb_lcd_right_to_left ⟨⟨0x08, 0x04, 0x02, 1, 2, 0, 0x62, 7⟩, []⟩).lcd =
      ⟨0x08, 0x04, 0x00, 1, 2, 0, 0x62, 7⟩ ∧
    (rgb_lcd_right_to_left ⟨⟨0x08, 0x04, 0x02, 1, 2, 0, 0x62, 7⟩, []⟩).trace =
      [] ++ [Event.transmit 7 0x7C [0x80, 0x04] 100] :=
  ⟨⟨by decide, by decide⟩,
    ((entry_mode_ops ⟨⟨0x08, 0x04, 0x02, 1, 2, 0, 0x62, 7⟩, []⟩ (by decide)
        (by decide)).2.2.1).1,
    ((entry_mode_ops ⟨⟨0x08, 0x04, 0x02, 1, 2, 0, 0x62, 7⟩, []⟩ (by decide)
        (by decide)).2.2.1).2.1,
    ((entry_mode_ops ⟨⟨0x08, 0x04, 0x02, 1, 2, 0, 0x62, 7⟩, []⟩ (by decide)
        (by decide)).2.1).1,
    ((entry_mode_ops ⟨⟨0x08, 0x04, 0x02, 1, 2, 0, 0x62, 7⟩, []⟩ (by decide)
        (by decide)).2.1).2.1⟩

/-- C16: in an initialised state `rgb_lcd_scroll_display_left` appends exactly one bus
write `[0x80, 0x18]` and `rgb_lcd_scroll_display_right` exactly one bus write
`[0x80, 0x1C]`, both to the LCD controller, and both leave the whole device structure,
`displaymode` included, unchanged. -/
theorem scroll_frames (w : World) (hinit : w.lcd.initialized ≠ 0) :
    (rgb_lcd_scroll_display_left w).lcd = w.lcd ∧
    (rgb_lcd_scroll_display_left w).trace = w.trace ++
      [Event.transmit w.lcd.hi2c (0x3E <<< 1) [0x80, 0x18] 100] ∧
    (rgb_lcd_scroll_display_right w).lcd = w.lcd ∧
    (rgb_lcd_scroll_display_right w).trace = w.trace ++
      [Event.transmit w.lcd.hi2c (0x3E <<< 1) [0x80, 0x1C] 100] := by
  refine ⟨by simp [rgb_lcd_scroll_display_left], ?_,
    by simp [rgb_lcd_scroll_display_right], ?_⟩
  · simp [rgb_lcd_scroll_display_left, lcd_command_trace, hinit, lcd_frame, u8,
      LCD_CURSORSHIFT, LCD_DISPLAYMOVE, LCD_MOVELEFT]
  · simp [rgb_lcd_scroll_display_right, lcd_command_trace, hinit, lcd_frame, u8,
      LCD_CURSORSHIFT, LCD_DISPLAYMOVE, LCD_MOVERIGHT]

/-- A concrete run for C16: both scrolls in a state with right-to-left autoscroll entry
mode. -/
theorem scroll_frames_witness :
    (⟨⟨0x08, 0x05, 0x01, 1, 2, 0, 0x30, 9⟩, []⟩ : World).lcd.initialized ≠ 0 ∧
    (rgb_lcd_scroll_display_left ⟨⟨0x08, 0x05, 0x01, 1, 2, 0, 0x30, 9⟩, []⟩).lcd =
      ⟨0x08, 0x05, 0x01, 1, 2, 0, 0x30, 9⟩ ∧
    (rgb_lcd_scroll_display_left ⟨⟨0x08, 0x05, 0x01, 1, 2, 0, 0x30, 9⟩, []⟩).trace =
      [] ++ [Event.transmit 9 0x7C [0x80, 0x18] 100] ∧
    (rgb_lcd_scroll_display_right ⟨⟨0x08, 0x05, 0x01, 1, 2, 0, 0x30, 9⟩, []⟩).lcd =
      ⟨0x08, 0x05, 0x01, 1, 2, 0, 0x30, 9⟩ ∧
    (rgb_lcd_scroll_display_right ⟨⟨0x08, 0x05, 0x01, 1, 2, 0, 0x30, 9⟩, []⟩).trace =
      [] ++ [Event.transmit 9 0x7C [0x80, 0x1C] 100] :=
  ⟨by decide, scroll_frames ⟨⟨0x08, 0x05, 0x01, 1, 2, 0, 0x30, 9⟩, []⟩ (by decide)⟩

/-- C17: in every device state and for every value `v`, `rgb_lcd_set_pwm(channel, v)` is
`rgb_lcd_set_rgb(v, v, v)` for channel 0, `set_rgb(v, 0, 0)` for channel 1,
`set_rgb(0, v, 0)` for channel 2 and `set_rgb(0, 0, v)` for channel 3; for every channel
above 3 it appends no event and changes no field. -/
theorem set_pwm_channels (w : World) (v : Nat) :
    rgb_lcd_set_pwm w 0 v = rgb_lcd_set_rgb w v v v ∧
    rgb_lcd_set_pwm w 1 v = rgb_lcd_set_rgb w v 0 0 ∧
    rgb_lcd_set_pwm w 2 v = rgb_lcd_set_rgb w 0 v 0 ∧
    rgb_lcd_set_pwm w 3 v = rgb_lcd_set_rgb w 0 0 v ∧
    ∀ channel, 3 < channel → rgb_lcd_set_pwm w channel v = w := by
  refine ⟨rfl, rfl, rfl, rfl, ?_⟩
  intro channel h
  have h0 : channel ≠ 0 := by omega
  have h1 : channel ≠ 1 := by omega
  have h2 : channel ≠ 2 := by omega
  have h3 : channel ≠ 3 := by omega
  simp [rgb_lcd_set_pwm, WHITE, RED, GREEN, BLUE, h0, h1, h2, h3]

/-- A concrete run for C17: channel 4 with value 90 in an initialised state changes
nothing. -/
theorem set_pwm_channels_witness :
    3 < 4 ∧
    rgb_lcd_set_pwm ⟨⟨0x08, 0x04, 0x02, 1, 2, 0, 0x30, 9⟩, [Event.delay 2]⟩ 4 90 =
      ⟨⟨0x08, 0x04, 0x02, 1, 2, 0, 0x30, 9⟩, [Event.delay 2]⟩ :=
  ⟨by decide,
    (set_pwm_channels ⟨⟨0x08, 0x04, 0x02, 1, 2, 0, 0x30, 9⟩, [Event.delay 2]⟩ 90).2.2.2.2
      4 (by decide)⟩

/-- C18: in every state reached after `rgb_lcd_init`, `rgb_lcd_blink_led` and
`rgb_lcd_no_blink_led` change no field (so not `displaycontrol`) and append only register
writes to the stored backlight address, which is 0x30 or 0x62: on the newer chip
`[0x04, 0x2A], [0x01, 0x06], [0x02, 0x7F]` and `[0x04, 0x15]`, on the legacy chip
`[0x07, 0x17], [0x06, 0x7F]` and `[0x07, 0x00], [0x06, 0xFF]`.  `rgb_lcd_blink` and
`rgb_lcd_no_blink` append one display-control frame to the LCD controller, whose 8-bit
address 0x7C is neither backlight address, and nothing else. -/
theorem blink_features_kept_apart (w0 : World) (cols lines dotsize hi2c : Nat)
    (status : HAL_StatusTypeDef) (cs : List Call) :
    ((rgb_lcd_blink_led (reach w0 cols lines dotsize hi2c status cs)).lcd =
        (reach w0 cols lines dotsize hi2c status cs).lcd ∧
     (rgb_lcd_no_blink_led (reach w0 cols lines dotsize hi2c status cs)).lcd =
        (reach w0 cols lines dotsize hi2c status cs).lcd ∧
     (rgb_lcd_blink_led (reach w0 cols lines dotsize hi2c status cs)).trace =
      (reach w0 cols lines dotsize hi2c status cs).trace ++
      (if (reach w0 cols lines dotsize hi2c status cs).lcd.rgb_chip_addr = 0x30 then
        [Event.transmit (reach w0 cols lines dotsize hi2c status cs).lcd.hi2c (0x30 <<< 1)
          [0x04, 0x2A] 100,
         Event.transmit (reach w0 cols lines dotsize hi2c status cs).lcd.hi2c (0x30 <<< 1)
          [0x01, 0x06] 100,
         Event.transmit (reach w0 cols lines dotsize hi2c status cs).lcd.hi2c (0x30 <<< 1)
          [0x02, 0x7F] 100]
       else
        [Event.transmit (reach w0 cols lines dotsize hi2c status cs).lcd.hi2c (0x62 <<< 1)
          [0x07, 0x17] 100,
         Event.transmit (reach w0 cols lines dotsize hi2c status cs).lcd.hi2c (0x62 <<< 1)
          [0x06, 0x7F] 100]) ∧
     (rgb_lcd_no_blink_led (reach w0 cols lines dotsize hi2c status cs)).trace =
      (reach w0 cols lines dotsize hi2c status cs).trace ++
      (if (reach w0 cols lines dotsize hi2c status cs).lcd.rgb_chip_addr = 0x30 then
        [Event.transmit (reach w0 cols lines dotsize hi2c status cs).lcd.hi2c (0x30 <<< 1)
          [0x04, 0x15] 100]
       else
        [Event.transmit (reach w0 cols lines dotsize hi2c status cs).lcd.hi2c (0x62 <<< 1)
          [0x07, 0x00] 100,
         Event.transmit (reach w0 cols lines dotsize hi2c status cs).lcd.hi2c (0x62 <<< 1)
          [0x06, 0xFF] 100]) ∧
     (rgb_lcd_blink (reach w0 cols lines dotsize hi2c status cs)).trace =
      (reach w0 cols lines dotsize hi2c status cs).trace ++
      [Event.transmit (reach w0 cols lines dotsize hi2c status cs).lcd.hi2c (0x3E <<< 1)
        [0x80, 0x08 |||
          (rgb_lcd_blink (reach w0 cols lines dotsize hi2c status cs)).lcd.displaycontrol]
        100] ∧
     (rgb_lcd_no_blink (reach w0 cols lines dotsize hi2c status cs)).trace =
      (reach w0 cols lines dotsize hi2c status cs).trace ++
      [Event.transmit (reach w0 cols lines dotsize hi2c status cs).lcd.hi2c (0x3E <<< 1)
        [0x80, 0x08 |||
          (rgb_lcd_no_blink (reach w0 cols lines dotsize hi2c status cs)).lcd.displaycontrol]
        100]) ∧
    ((reach w0 cols lines dotsize hi2c status cs).lcd.rgb_chip_addr = 0x30 ∨
     (reach w0 cols lines dotsize hi2c status cs).lcd.rgb_chip_addr = 0x62) ∧
    (0x3E <<< 1 ≠ 0x30 <<< 1 ∧ 0x3E <<< 1 ≠ 0x62 <<< 1) := by
  have h := reach_inv w0 cols lines dotsize hi2c status cs
  exact ⟨blink_calls_of_inv _ h, h.2.2.2.1, by decide, by decide⟩

/-- C19, the claim as stated fails: an instance initialised on the legacy chip stores
the address 0x62, yet `rgb_lcd_init`, here called a second time from that reachable state
and again choosing 0x62, sends its probe to the 8-bit address 0x60 (7-bit 0x30), which is
neither the LCD controller nor the chosen backlight address. -/
theorem init_probe_writes_to_unchosen_address :
    (rgb_lcd_init ⟨⟨0, 0, 0, 0, 0, 0, 0, 0⟩, []⟩ 16 2 0 7
      HAL_StatusTypeDef.HAL_ERROR).lcd.rgb_chip_addr = 0x62 ∧
    (Call.run (Call.init 16 2 0 7 HAL_StatusTypeDef.HAL_ERROR)
      (rgb_lcd_init ⟨⟨0, 0, 0, 0, 0, 0, 0, 0⟩, []⟩ 16 2 0 7
        HAL_StatusTypeDef.HAL_ERROR)).lcd.rgb_chip_addr = 0x62 ∧
    0x60 ∈ bus_addresses (emitted
      (rgb_lcd_init ⟨⟨0, 0, 0, 0, 0, 0, 0, 0⟩, []⟩ 16 2 0 7 HAL_StatusTypeDef.HAL_ERROR)
      (Call.run (Call.init 16 2 0 7 HAL_StatusTypeDef.HAL_ERROR)
        (rgb_lcd_init ⟨⟨0, 0, 0, 0, 0, 0, 0, 0⟩, []⟩ 16 2 0 7
          HAL_StatusTypeDef.HAL_ERROR))) ∧
    0x60 ≠ 0x3E <<< 1 ∧ 0x60 ≠ 0x62 <<< 1 := by
  decide

/-- C19, amended: in every state reachable from `rgb_lcd_init` by public calls,
`displaycontrol <= 0x07`, `displaymode <= 0x03`, `displayfunction` is 0x00, 0x04 or 0x08,
`rgb_chip_addr` is 0x30 or 0x62 and `initialized` is 1.  So every mode byte handed to
`lcd_command` keeps its opcode as highest bit (display control 0x08..0x0F, entry mode
0x04..0x07, function set 0x20..0x2F), also in the frame each toggle and each
direction/autoscroll call emits.  Every bus write of a call other than `rgb_lcd_init` goes
to the LCD controller or to the stored backlight address; those of `rgb_lcd_init` go to the
LCD controller, to the address it stores, or, for its probe, to 0x30.  The shifted
addresses 0x7C, 0x60, 0xC4 fit in a byte. -/
theorem reachable_state_invariant (w : World) (hw : Reachable w) :
    (w.lcd.displaycontrol ≤ 0x07 ∧ w.lcd.displaymode ≤ 0x03 ∧
      (w.lcd.displayfunction = 0x00 ∨ w.lcd.displayfunction = 0x04 ∨
        w.lcd.displayfunction = 0x08) ∧
      (w.lcd.rgb_chip_addr = 0x30 ∨ w.lcd.rgb_chip_addr = 0x62) ∧ w.lcd.initialized = 1) ∧
    (0x08 ≤ u8 (LCD_DISPLAYCONTROL ||| w.lcd.displaycontrol) ∧
      u8 (LCD_DISPLAYCONTROL ||| w.lcd.displaycontrol) ≤ 0x0F ∧
      0x04 ≤ u8 (LCD_ENTRYMODESET ||| w.lcd.displaymode) ∧
      u8 (LCD_ENTRYMODESET ||| w.lcd.displaymode) ≤ 0x07 ∧
      0x20 ≤ u8 (LCD_FUNCTIONSET ||| w.lcd.displayfunction) ∧
      u8 (LCD_FUNCTIONSET ||| w.lcd.displayfunction) ≤ 0x2F) ∧
    (∀ t : Toggle, ∃ b, (t.run w).trace = w.trace ++
        [Event.transmit w.lcd.hi2c (0x3E <<< 1) [0x80, b] 100] ∧ 0x08 ≤ b ∧ b ≤ 0x0F) ∧
    (∃ b1 b2 b3 b4,
      (rgb_lcd_left_to_right w).trace = w.trace ++
        [Event.transmit w.lcd.hi2c (0x3E <<< 1) [0x80, b1] 100] ∧
      (rgb_lcd_right_to_left w).trace = w.trace ++
        [Event.transmit w.lcd.hi2c (0x3E <<< 1) [0x80, b2] 100] ∧
      (rgb_lcd_autoscroll w).trace = w.trace ++
        [Event.transmit w.lcd.hi2c (0x3E <<< 1) [0x80, b3] 100] ∧
      (rgb_lcd_no_autoscroll w).trace = w.trace ++
        [Event.transmit w.lcd.hi2c (0x3E <<< 1) [0x80, b4] 100] ∧
      (0x04 ≤ b1 ∧ b1 ≤ 0x07) ∧ (0x04 ≤ b2 ∧ b2 ≤ 0x07) ∧
      (0x04 ≤ b3 ∧ b3 ≤ 0x07) ∧ (0x04 ≤ b4 ∧ b4 ≤ 0x07)) ∧
    (∀ o : Op, (o.run w).trace = w.trace ++ emitted w (o.run w) ∧
      bus_addresses (emitted w (o.run w)) ⊆ [0x3E <<< 1, w.lcd.rgb_chip_addr <<< 1]) ∧
    (∀ (w1 : World) (cols lines dotsize hi2c : Nat) (status : HAL_StatusTypeDef),
      (rgb_lcd_init w1 cols lines dotsize hi2c status).trace =
        w1.trace ++ emitted w1 (rgb_lcd_init w1 cols lines dotsize hi2c status) ∧
      bus_addresses (emitted w1 (rgb_lcd_init w1 cols lines dotsize hi2c status)) ⊆
        [0x3E <<< 1, 0x30 <<< 1,
          (rgb_lcd_init w1 cols lines dotsize hi2c status).lcd.rgb_chip_addr <<< 1]) ∧
    (0x3E <<< 1 = 0x7C ∧ 0x30 <<< 1 = 0x60 ∧ 0x62 <<< 1 = 0xC4 ∧
      (w.lcd.rgb_chip_addr <<< 1 = 0x60 ∨ w.lcd.rgb_chip_addr <<< 1 = 0xC4) ∧
      w.lcd.rgb_chip_addr <<< 1 < 256) := by
  have hinv := hw.inv
  obtain ⟨h1, h2, h3, h4, h5⟩ := hinv
  have hinit : w.lcd.initialized ≠ 0 := by rw [h5]; decide
  have hdc := mode_byte_bounds 3 w.lcd.displaycontrol (by decide) (Nat.lt_succ_of_le h1)
  have hdm := mode_byte_bounds 2 w.lcd.displaymode (by decide) (Nat.lt_succ_of_le h2)
  have hdf : 0x20 ≤ u8 (LCD_FUNCTIONSET ||| w.lcd.displayfunction) ∧
      u8 (LCD_FUNCTIONSET ||| w.lcd.displayfunction) ≤ 0x2F := by
    rcases h3 with h | h | h <;> rw [h] <;> decide
  refine ⟨⟨h1, h2, h3, h4, h5⟩, ⟨hdc.1, hdc.2.1, hdm.1, hdm.2.1, hdf.1, hdf.2⟩,
    ?_, ?_, fun o => Op.run_bus_addresses o w hinit, ?_, ?_⟩
  · intro t
    have ht := Reachable.inv (Reachable.call (Call.op t.toOp) w hw)
    have hb := mode_byte_bounds 3 (t.run w).lcd.displaycontrol (by decide)
      (Nat.lt_succ_of_le (by cases t <;> exact ht.1))
    exact ⟨_, Toggle.run_trace t w hinit, hb.1, hb.2.1⟩
  · have e := entry_mode_trace w hinit
    have r1 := Reachable.inv (Reachable.call (Call.op Op.left_to_right) w hw)
    have r2 := Reachable.inv (Reachable.call (Call.op Op.right_to_left) w hw)
    have r3 := Reachable.inv (Reachable.call (Call.op Op.autoscroll) w hw)
    have r4 := Reachable.inv (Reachable.call (Call.op Op.no_autoscroll) w hw)
    have b1 := mode_byte_bounds 2 _ (by decide) (Nat.lt_succ_of_le r1.2.1)
    have b2 := mode_byte_bounds 2 _ (by decide) (Nat.lt_succ_of_le r2.2.1)
    have b3 := mode_byte_bounds 2 _ (by decide) (Nat.lt_succ_of_le r3.2.1)
    have b4 := mode_byte_bounds 2 _ (by decide) (Nat.lt_succ_of_le r4.2.1)
    exact ⟨_, _, _, _, e.1, e.2.1, e.2.2.1, e.2.2.2, ⟨b1.1, b1.2.1⟩, ⟨b2.1, b2.2.1⟩,
      ⟨b3.1, b3.2.1⟩, ⟨b4.1, b4.2.1⟩⟩
  · intro w1 cols lines dotsize hi2c status
    refine ⟨?_, rgb_lcd_init_bus w1 cols lines dotsize hi2c status⟩
    rw [rgb_lcd_init_emitted, rgb_lcd_init_eq]; simp
  · refine ⟨by decide, by decide, by decide, ?_, ?_⟩ <;>
      rcases h4 with h | h <;> rw [h] <;> decide

/-- A concrete run for C19 as amended: a one-line 5x10 display initialised on the newer
chip, then `cursor`; the flags are 0x06 / 0x02 / 0x04 and the chip address is 0x30. -/
theorem reachable_state_invariant_witness :
    Reachable (Call.run (Call.op Op.cursor)
      (rgb_lcd_init ⟨⟨0, 0, 0, 0, 0, 0, 0, 0⟩, []⟩ 16 1 1 7 HAL_StatusTypeDef.HAL_OK)) ∧
    (Call.run (Call.op Op.cursor)
      (rgb_lcd_init ⟨⟨0, 0, 0, 0, 0, 0, 0, 0⟩, []⟩ 16 1 1 7 HAL_StatusTypeDef.HAL_OK)).lcd
      = ⟨0x04, 0x06, 0x02, 1, 1, 0, 0x30, 7⟩ ∧
    ((0x06 : Nat) ≤ 0x07 ∧ (0x02 : Nat) ≤ 0x03 ∧
      ((0x04 : Nat) = 0x00 ∨ (0x04 : Nat) = 0x04 ∨ (0x04 : Nat) = 0x08) ∧
      ((0x30 : Nat) = 0x30 ∨ (0x30 : Nat) = 0x62) ∧ (1 : Nat) = 1) :=
  ⟨Reachable.call (Call.op Op.cursor) _ (Reachable.init _ 16 1 1 7 HAL_StatusTypeDef.HAL_OK),
    by decide,
    (reachable_state_invariant _
      (Reachable.call (Call.op Op.cursor) _
        (Reachable.init ⟨⟨0, 0, 0, 0, 0, 0, 0, 0⟩, []⟩ 16 1 1 7
          HAL_StatusTypeDef.HAL_OK))).1⟩

/-- C20: `rgb_lcd_init` ignores history: from any two prior worlds and with any two values
of `cols`, the same `lines`, `dotsize`, bus handle and probe outcome give the same device
structure and the same sequence of bus writes and delays. -/
theorem init_ignores_history (w1 w2 : World) (cols1 cols2 lines dotsize hi2c : Nat)
    (status : HAL_StatusTypeDef) :
    (rgb_lcd_init w1 cols1 lines dotsize hi2c status).lcd =
      (rgb_lcd_init w2 cols2 lines dotsize hi2c status).lcd ∧
    emitted w1 (rgb_lcd_init w1 cols1 lines dotsize hi2c status) =
      emitted w2 (rgb_lcd_init w2 cols2 lines dotsize hi2c status) ∧
    (rgb_lcd_init w1 cols1 lines dotsize hi2c status).trace =
      w1.trace ++ emitted w1 (rgb_lcd_init w1 cols1 lines dotsize hi2c status) ∧
    (rgb_lcd_init w2 cols2 lines dotsize hi2c status).trace =
      w2.trace ++ emitted w2 (rgb_lcd_init w2 cols2 lines dotsize hi2c status) := by
  refine ⟨?_, ?_, ?_, ?_⟩
  · rw [rgb_lcd_init_eq, rgb_lcd_init_eq]
  · rw [rgb_lcd_init_emitted, rgb_lcd_init_emitted]
  · rw [rgb_lcd_init_emitted, rgb_lcd_init_eq]; simp
  · rw [rgb_lcd_init_emitted, rgb_lcd_init_eq]; simp

end RgbLcd
